import Mathlib

/-!
Verification of the container-assembly core of the c0lor-mem repository.

The Python sources under src/python/app/core are shallowly embedded here:

* byte strings become `List ℕ` (each element a byte value 0..255);
* `struct.pack` of big-endian u16/u32 becomes `pack16`/`pack32` (modular,
  as the values packed by the code are always in range);
* float64 arithmetic (numpy / math) is idealised as real arithmetic `ℝ`,
  with `**`/`np.power` as `Real.rpow`, `math.sqrt` as `Real.sqrt` and
  `math.log2` as `Real.logb 2`; the numeric conclusions proved below hold
  with margins that dwarf float64 rounding error;
* `astype(np.uint16)` on the clipped non-negative arrays is truncation
  toward zero, i.e. `Int.floor` followed by `Int.toNat`;
* calls into PIL / zlib (JPEG encoding, deflate compression) are opaque:
  their outputs are universally quantified byte-list parameters, while
  `zlib.crc32` is given its standard IEEE CRC-32 definition.
-/

/-! ## Byte-level primitives -/

/-- Big-endian 2-byte encoding, modelling Python `struct.pack(">H", n)`
(the code only ever packs in-range values; out-of-range is reduced mod 2^16). -/
def pack16 (n : ℕ) : List ℕ := [n % 2 ^ 16 / 2 ^ 8, n % 2 ^ 8]

/-- Big-endian 4-byte encoding, modelling Python `struct.pack(">I", n)`. -/
def pack32 (n : ℕ) : List ℕ :=
  [n % 2 ^ 32 / 2 ^ 24, n % 2 ^ 24 / 2 ^ 16, n % 2 ^ 16 / 2 ^ 8, n % 2 ^ 8]

/-- Byte of a byte string at index `i` (0 when out of range). -/
def byte_at (l : List ℕ) (i : ℕ) : ℕ := (l.drop i).headD 0

/-- Big-endian u16 read at index `i`, modelling `struct.unpack(">H", s[i:i+2])`. -/
def readU16 (l : List ℕ) (i : ℕ) : ℕ := byte_at l i * 2 ^ 8 + byte_at l (i + 1)

/-- Big-endian u32 read at index `i`, modelling `struct.unpack(">I", s[i:i+4])`. -/
def readU32 (l : List ℕ) (i : ℕ) : ℕ :=
  byte_at l i * 2 ^ 24 + byte_at l (i + 1) * 2 ^ 16 + byte_at l (i + 2) * 2 ^ 8 +
    byte_at l (i + 3)

/-- Python slice `l[s:s+n]`. -/
def byte_slice (l : List ℕ) (s n : ℕ) : List ℕ := (l.drop s).take n

/-- Overwrite four bytes at position `pos`, modelling
`struct.pack_into(">I", buf, pos, v)` (positions used are always in range). -/
def pack_into (l : List ℕ) (pos v : ℕ) : List ℕ :=
  l.take pos ++ pack32 v ++ l.drop (pos + 4)

/-! ## Pattern generator (src/python/app/core/pattern_generator.py) -/

/-- Python `round`: round half to even (banker's rounding); on non-ties it
agrees with rounding to the nearest integer. -/
noncomputable def py_round (x : ℝ) : ℤ :=
  if Int.fract x = 1 / 2 then (if Even ⌊x⌋ then ⌊x⌋ else ⌊x⌋ + 1) else round x

/-- Embedding of `calc_rectangle` (pattern_generator.py lines 30-40); Python
`//` on these non-negative operands is integer floor division, which for the
positive divisor 2 agrees with `Int` division here. -/
noncomputable def calc_rectangle (width height apl_percent : ℕ) : ℤ × ℤ × ℤ × ℤ :=
  let scale := Real.sqrt (apl_percent / 100)
  let rect_w := py_round (width * scale)
  let rect_h := py_round (height * scale)
  let x := ((width : ℤ) - rect_w) / 2
  let y := ((height : ℤ) - rect_h) / 2
  (x, y, rect_w, rect_h)

/-! ## PQ transfer (src/python/app/core/pq.py) -/

/-- Modelling `np.clip(x, lo, hi)`. -/
noncomputable def clip (x lo hi : ℝ) : ℝ := min (max x lo) hi

/-- Embedding of `srgb_eotf` (pq.py lines 22-28), `np.where` on a scalar. -/
noncomputable def srgb_eotf (x : ℝ) : ℝ :=
  if x ≤ 0.04045 then x / 12.92 else ((x + 0.055) / 1.055) ^ (2.4 : ℝ)

/-- Embedding of `pq_oetf` (pq.py lines 31-39); the constants are the
source's literals m1 = 2610/16384, m2 = 2523/32, c1 = 3424/4096,
c2 = 2413/128, c3 = 2392/128 (all dyadic, hence exact in float64). -/
noncomputable def pq_oetf (L : ℝ) : ℝ :=
  ((0.8359375 + 18.8515625 * clip L 0 1 ^ (0.1593017578125 : ℝ)) /
      (1 + 18.6875 * clip L 0 1 ^ (0.1593017578125 : ℝ))) ^ (78.84375 : ℝ)

/-- One channel of `image_to_pq_rgb48` (pq.py lines 42-58) before
quantisation: an 8-bit sRGB sample `s` with peak luminance `peak` becomes
`pq_oetf(clip(srgb_eotf(s/255) * peak/10000, 0, 1))`.  The identical
arithmetic appears again in `save_pq_png` (pq.py lines 117-124). -/
noncomputable def pq_channel (s peak : ℕ) : ℝ :=
  pq_oetf (clip (srgb_eotf (s / 255) * (peak / 10000)) 0 1)

/-- The uint16 quantisation of pq.py lines 61 and 126:
`np.clip(pq * 65535.0, 0, 65535).astype(np.uint16)`; `astype` truncates
toward zero, and the clipped value is non-negative, so this is the floor. -/
noncomputable def quant_channel (s peak : ℕ) : ℕ :=
  (Int.floor (clip (pq_channel s peak * 65535) 0 65535)).toNat

/-! ## HDR gain-map JPEG assembly (src/python/app/core/hdr_gainmap.py) -/

/-- UTF-8 encoding of one character. -/
def utf8_char (c : Char) : List ℕ :=
  if c.toNat < 128 then [c.toNat]
  else if c.toNat < 2048 then [192 + c.toNat / 64, 128 + c.toNat % 64]
  else if c.toNat < 65536 then
    [224 + c.toNat / 4096, 128 + c.toNat / 64 % 64, 128 + c.toNat % 64]
  else
    [240 + c.toNat / 262144, 128 + c.toNat / 4096 % 64, 128 + c.toNat / 64 % 64,
      128 + c.toNat % 64]

/-- UTF-8 encoding of a string, modelling Python `s.encode("utf-8")`. -/
def utf8_encode (s : String) : List ℕ := (s.toList.map utf8_char).flatten

/-- The bytes of `b"Exif\x00\x00"`. -/
def exif_sig : List ℕ := [0x45, 0x78, 0x69, 0x66, 0, 0]

/-- The bytes of `b"Apple\x00\x00\x00"`, the MakerNote signature. -/
def apple_sig : List ℕ := [0x41, 0x70, 0x70, 0x6C, 0x65, 0, 0, 0]

/-- The bytes of `b"http://ns.adobe.com/xap/1.0/\x00"`, the XMP APP1 payload
prefix. -/
def xmp_header_bytes : List ℕ := utf8_encode "http://ns.adobe.com/xap/1.0/" ++ [0]

/-- IEEE-754 single-precision big-endian encoding of 1.01, the bytes written
by `struct.pack(">f", 1.01)`. -/
def f32_1_01 : List ℕ := [0x3F, 0x81, 0x47, 0xAE]

/-- IEEE-754 single-precision big-endian encoding of 0.009986, the bytes
written by `struct.pack(">f", 0.009986)`. -/
def f32_0_009986 : List ℕ := [0x3C, 0x23, 0x9C, 0x52]

/-- The marker walk of `_inject_makerapple_exif` (hdr_gainmap.py lines
210-228): starting at `pos`, scan JPEG markers until EOI/SOS and return the
position and declared length of an Exif APP1 segment when one exists.  The
walk advances by at least 2 bytes per step, so `jpeg.length` fuel (as passed
by `inject_makerapple_exif`) always suffices; out-of-range reads, on which
Python would raise, are modelled as 0-bytes. -/
def find_exif_app1 (jpeg : List ℕ) : ℕ → ℕ → Option (ℕ × ℕ)
  | 0, _ => none
  | fuel + 1, pos =>
    if pos < jpeg.length - 1 then
      if byte_at jpeg pos ≠ 0xFF then none
      else if byte_at jpeg (pos + 1) = 0xD9 then none
      else if byte_at jpeg (pos + 1) = 0xDA then none
      else if byte_at jpeg (pos + 1) < 0xD0 ∨ 0xD7 < byte_at jpeg (pos + 1) then
        if byte_at jpeg (pos + 1) = 0xE1 ∧ byte_slice jpeg (pos + 4) 6 = exif_sig then
          some (pos, readU16 jpeg (pos + 2))
        else find_exif_app1 jpeg fuel (pos + 2 + readU16 jpeg (pos + 2))
      else find_exif_app1 jpeg fuel (pos + 2)
    else none

/-- Embedding of `_build_makerapple_ifd` (hdr_gainmap.py lines 164-194):
two FLOAT entries, tag 0x0021 = 1.01f and tag 0x0030 = 0.009986f, then a
zero next-IFD offset.  `peak_nits` is accepted and ignored, as in the
source. -/
def build_makerapple_ifd (_peak_nits : ℕ) : List ℕ :=
  pack16 2 ++
    pack16 0x0021 ++ pack16 11 ++ pack32 1 ++ f32_1_01 ++
    pack16 0x0030 ++ pack16 11 ++ pack32 1 ++ f32_0_009986 ++
    pack32 0

/-- The TIFF block built by `_inject_makerapple_exif` (hdr_gainmap.py lines
235-252) when no Exif APP1 exists: big-endian header, IFD0 with the single
MakerNote entry (count = length of the MakerApple IFD, value offset 26),
then the `"Apple\0\0\0"` signature and the MakerApple IFD. -/
def makerapple_tiff (peak_nits : ℕ) : List ℕ :=
  [0x4D, 0x4D, 0x00, 0x2A] ++ pack32 8 ++
    pack16 1 ++
    pack16 0x927C ++ pack16 7 ++ pack32 (build_makerapple_ifd peak_nits).length ++
    pack32 26 ++
    pack32 0 ++
    apple_sig ++ build_makerapple_ifd peak_nits

/-- The synthesized Exif APP1 segment (hdr_gainmap.py lines 253-254). -/
def makerapple_exif_app1 (peak_nits : ℕ) : List ℕ :=
  [0xFF, 0xE1] ++ pack16 ((exif_sig ++ makerapple_tiff peak_nits).length + 2) ++
    (exif_sig ++ makerapple_tiff peak_nits)

/-- Embedding of `_inject_makerapple_exif` (hdr_gainmap.py lines 197-262):
insert a minimal Exif APP1 after SOI when the marker walk finds no Exif
APP1; return the JPEG unchanged when one exists. -/
def inject_makerapple_exif (jpeg : List ℕ) (peak_nits : ℕ) : List ℕ :=
  match find_exif_app1 jpeg jpeg.length 2 with
  | some _ => jpeg
  | none => jpeg.take 2 ++ makerapple_exif_app1 peak_nits ++ jpeg.drop 2

/-- The XMP APP1 segment built for the primary image by `_build_mpf_jpeg`
(hdr_gainmap.py lines 311-313). -/
def xmp_app1_of (xmp : List ℕ) : List ℕ :=
  [0xFF, 0xE1] ++ pack16 ((xmp_header_bytes ++ xmp).length + 2) ++
    (xmp_header_bytes ++ xmp)

/-- Embedding of `_inject_xmp_into_jpeg` (hdr_gainmap.py lines 269-275). -/
def inject_xmp_into_jpeg (jpeg xmp : List ℕ) : List ℕ :=
  jpeg.take 2 ++ xmp_app1_of xmp ++ jpeg.drop 2

/-- The Exif APP1 extraction of `_build_mpf_jpeg` (hdr_gainmap.py lines
298-308): run `_inject_makerapple_exif`, take everything after SOI when it
changed the blob, and truncate to the declared APP1 length. -/
def exif_segment (sdr_jpeg : List ℕ) (peak_nits : ℕ) : List ℕ :=
  let withExif := inject_makerapple_exif sdr_jpeg peak_nits
  let e0 := if withExif ≠ sdr_jpeg then withExif.drop 2 else []
  if e0 ≠ [] ∧ e0.take 2 = [0xFF, 0xE1] then e0.take (2 + readU16 e0 2) else []

/-- The MPF APP2 payload of `_build_mpf_jpeg` (hdr_gainmap.py lines 315-360)
up to and including MP Entry 1's attribute field (byte 58 of the payload,
where `pos_entry1_size` points): signature, TIFF header, the three-entry
IFD (MPFVersion "0100", NumberOfImages 2, MPEntry at offset 50), zero
next-IFD offset and Entry 1's attribute 0x20030000. -/
def mpf_head : List ℕ :=
  [0x4D, 0x50, 0x46, 0x00] ++
    [0x4D, 0x4D] ++ [0x00, 0x2A] ++ pack32 8 ++
    pack16 3 ++
    pack16 0xB000 ++ pack16 7 ++ pack32 4 ++ [0x30, 0x31, 0x30, 0x30] ++
    pack16 0xB001 ++ pack16 4 ++ pack32 1 ++ pack32 2 ++
    pack16 0xB002 ++ pack16 7 ++ pack32 32 ++ pack32 50 ++
    pack32 0 ++
    pack32 0x20030000

/-- The MPF payload between Entry 1's size field and Entry 2's size field:
Entry 1's offset (always 0), its two dependent-image fields, Entry 2's
attribute 0. -/
def mpf_mid : List ℕ := pack32 0 ++ pack16 0 ++ pack16 0 ++ pack32 0

/-- The MPF payload after Entry 2's offset field: its two dependent-image
fields. -/
def mpf_tail : List ℕ := pack16 0 ++ pack16 0

/-- The MPF APP2 payload with Entry 1 size `sz`, Entry 2 offset `off` and
Entry 2 size `gmsz` in place. -/
def mpf_payload_with (sz off gmsz : ℕ) : List ℕ :=
  mpf_head ++ pack32 sz ++ mpf_mid ++ pack32 gmsz ++ pack32 off ++ mpf_tail

/-- The MPF APP2 payload as first written, with placeholder zeros for
Entry 1's size and Entry 2's offset (`pos_entry1_size` = 58 and
`pos_entry2_offset` = 78 in the source). -/
def mpf_payload_raw (gmsz : ℕ) : List ℕ := mpf_payload_with 0 0 gmsz

/-- Embedding of `_build_mpf_jpeg` (hdr_gainmap.py lines 278-391): assemble
SOI, the synthesized Exif APP1 (when injected), the primary XMP APP1, the
MPF APP2 with `primary_total` and `primary_total - bo_pos` patched in at
payload offsets 58 and 78, the remainder of the primary JPEG, and the gain
map JPEG. -/
def build_mpf_jpeg (sdr_jpeg gainmap_jpeg primary_xmp : List ℕ) (peak_nits : ℕ) :
    List ℕ :=
  let soi : List ℕ := [0xFF, 0xD8]
  let rest_of_primary := sdr_jpeg.drop 2
  let exif_app1 := exif_segment sdr_jpeg peak_nits
  let xmp_app1 := xmp_app1_of primary_xmp
  let raw := mpf_payload_raw gainmap_jpeg.length
  let primary_total :=
    soi.length + exif_app1.length + xmp_app1.length + (4 + raw.length) +
      rest_of_primary.length
  let bo_pos := soi.length + exif_app1.length + xmp_app1.length + 2 + 2 + 4
  let patched := pack_into (pack_into raw 58 primary_total) 78 (primary_total - bo_pos)
  let mpf_app2 := [0xFF, 0xE2] ++ pack16 (patched.length + 2) ++ patched
  soi ++ exif_app1 ++ xmp_app1 ++ mpf_app2 ++ rest_of_primary ++ gainmap_jpeg

/-- The source's `primary_total`: all bytes of the emitted file before the
secondary (gain-map) JPEG; the MPF APP2 segment is 90 bytes. -/
def primary_total_of (sdr_jpeg primary_xmp : List ℕ) (peak_nits : ℕ) : ℕ :=
  2 + (exif_segment sdr_jpeg peak_nits).length + (xmp_app1_of primary_xmp).length +
    90 + (sdr_jpeg.drop 2).length

/-- The source's `bo_pos`: the file offset of the "MM" byte-order mark,
`2 + len(exif_app1) + len(xmp_app1) + 2 + 2 + 4`. -/
def bo_pos_of (sdr_jpeg primary_xmp : List ℕ) (peak_nits : ℕ) : ℕ :=
  2 + (exif_segment sdr_jpeg peak_nits).length + (xmp_app1_of primary_xmp).length +
    2 + 2 + 4

/-- Embedding of `_calc_gain_map_max` (hdr_gainmap.py lines 34-36):
`math.log2(peak_nits / 203.0)`. -/
noncomputable def calc_gain_map_max (peak_nits : ℕ) : ℝ :=
  Real.logb 2 (peak_nits / 203)

/-- Python float formatting with `:.6f` (six decimal places), for the
non-negative non-tie values formatted by this code; Python rounds ties to
even, but no formatted value here is a tie. -/
noncomputable def fmt6 (x : ℝ) : String :=
  (if round (x * 1000000) < 0 then "-" else "") ++
    toString ((round (x * 1000000)).natAbs / 1000000) ++ "." ++
    String.mk (List.replicate (6 - (toString ((round (x * 1000000)).natAbs % 1000000)).length) '0') ++
    toString ((round (x * 1000000)).natAbs % 1000000)

/-- Embedding of `_build_apple_primary_xmp` (hdr_gainmap.py lines 62-78). -/
noncomputable def build_apple_primary_xmp (peak_nits : ℕ) : String :=
  "<?xpacket begin='\uFEFF' id='W5M0MpCehiHzreSzNTczkc9d'?>\n" ++
    "<x:xmpmeta xmlns:x='adobe:ns:meta/'>\n" ++
    "  <rdf:RDF xmlns:rdf='http://www.w3.org/1999/02/22-rdf-syntax-ns#'>\n" ++
    "    <rdf:Description rdf:about=''\n" ++
    "      xmlns:HDRGainMap='http://ns.apple.com/HDRGainMap/1.0/'\n" ++
    "      HDRGainMap:HDRGainMapVersion='65536'\n" ++
    "      HDRGainMap:HDRGainMapHeadroom='" ++ fmt6 (calc_gain_map_max peak_nits) ++
    "'\n" ++
    "    />\n" ++
    "  </rdf:RDF>\n" ++
    "</x:xmpmeta>\n" ++
    "<?xpacket end='w'?>"

/-- Embedding of `_build_apple_gainmap_xmp` (hdr_gainmap.py lines 81-99). -/
noncomputable def build_apple_gainmap_xmp (peak_nits : ℕ) : String :=
  "<?xpacket begin='\uFEFF' id='W5M0MpCehiHzreSzNTczkc9d'?>\n" ++
    "<x:xmpmeta xmlns:x='adobe:ns:meta/'>\n" ++
    "  <rdf:RDF xmlns:rdf='http://www.w3.org/1999/02/22-rdf-syntax-ns#'>\n" ++
    "    <rdf:Description rdf:about=''\n" ++
    "      xmlns:HDRGainMap='http://ns.apple.com/HDRGainMap/1.0/'\n" ++
    "      xmlns:apdi='http://ns.apple.com/pixeldatainfo/1.0/'\n" ++
    "      HDRGainMap:HDRGainMapVersion='65536'\n" ++
    "      HDRGainMap:HDRGainMapHeadroom='" ++ fmt6 (calc_gain_map_max peak_nits) ++
    "'\n" ++
    "      apdi:AuxiliaryImageType='urn:com:apple:photo:2020:aux:hdrgainmap'\n" ++
    "    />\n" ++
    "  </rdf:RDF>\n" ++
    "</x:xmpmeta>\n" ++
    "<?xpacket end='w'?>"

/-- Embedding of `_build_ultrahdr_primary_xmp` (hdr_gainmap.py lines
102-131); `gain_map_max` is computed but unused by the source template. -/
def build_ultrahdr_primary_xmp (_peak_nits gainmap_size : ℕ) : String :=
  "<?xpacket begin='\uFEFF' id='W5M0MpCehiHzreSzNTczkc9d'?>\n" ++
    "<x:xmpmeta xmlns:x='adobe:ns:meta/'>\n" ++
    "  <rdf:RDF xmlns:rdf='http://www.w3.org/1999/02/22-rdf-syntax-ns#'>\n" ++
    "    <rdf:Description rdf:about=''\n" ++
    "      xmlns:hdrgm='http://ns.adobe.com/hdr-gain-map/1.0/'\n" ++
    "      xmlns:Container='http://ns.google.com/photos/1.0/container/'\n" ++
    "      xmlns:Item='http://ns.google.com/photos/1.0/container/item/'\n" ++
    "      hdrgm:Version='1.0'>\n" ++
    "      <Container:Directory>\n" ++
    "        <rdf:Seq>\n" ++
    "          <rdf:li rdf:parseType='Resource'>\n" ++
    "            <Container:Item Item:Semantic='Primary' Item:Mime='image/jpeg'/>\n" ++
    "          </rdf:li>\n" ++
    "          <rdf:li rdf:parseType='Resource'>\n" ++
    "            <Container:Item Item:Semantic='GainMap' Item:Mime='image/jpeg' Item:Length='" ++
    toString gainmap_size ++ "'/>\n" ++
    "          </rdf:li>\n" ++
    "        </rdf:Seq>\n" ++
    "      </Container:Directory>\n" ++
    "    </rdf:Description>\n" ++
    "  </rdf:RDF>\n" ++
    "</x:xmpmeta>\n" ++
    "<?xpacket end='w'?>"

/-- Embedding of `_build_ultrahdr_gainmap_xmp` (hdr_gainmap.py lines
134-157). -/
noncomputable def build_ultrahdr_gainmap_xmp (peak_nits : ℕ) : String :=
  "<?xpacket begin='\uFEFF' id='W5M0MpCehiHzreSzNTczkc9d'?>\n" ++
    "<x:xmpmeta xmlns:x='adobe:ns:meta/'>\n" ++
    "  <rdf:RDF xmlns:rdf='http://www.w3.org/1999/02/22-rdf-syntax-ns#'>\n" ++
    "    <rdf:Description rdf:about=''\n" ++
    "      xmlns:hdrgm='http://ns.adobe.com/hdr-gain-map/1.0/'\n" ++
    "      hdrgm:Version='1.0'\n" ++
    "      hdrgm:GainMapMin='0.0'\n" ++
    "      hdrgm:GainMapMax='" ++ fmt6 (calc_gain_map_max peak_nits) ++ "'\n" ++
    "      hdrgm:Gamma='1.0'\n" ++
    "      hdrgm:OffsetSDR='0.015625'\n" ++
    "      hdrgm:OffsetHDR='0.015625'\n" ++
    "      hdrgm:HDRCapacityMin='0.0'\n" ++
    "      hdrgm:HDRCapacityMax='" ++ fmt6 (calc_gain_map_max peak_nits) ++ "'\n" ++
    "      hdrgm:BaseRenditionIsHDR='False'\n" ++
    "    />\n" ++
    "  </rdf:RDF>\n" ++
    "</x:xmpmeta>\n" ++
    "<?xpacket end='w'?>"

/-- A raster image as the container layer sees it: PIL images expose their
pixel dimensions and mode; `convert` changes the mode and keeps the
dimensions. -/
structure Img where
  width : ℕ
  height : ℕ
  mode : String

/-- PIL `Image.convert`: same dimensions, new mode. -/
def img_convert (img : Img) (m : String) : Img := Img.mk img.width img.height m

/-- Embedding of `_generate_gain_map` (hdr_gainmap.py lines 39-46): the
gain map is `sdr_img.convert("L")` — the luminance channel at full
resolution; no downsampling is performed and no GAINMAP_SCALE constant
exists in the source. -/
def generate_gain_map (sdr_img : Img) (_peak_nits : ℕ) : Img :=
  img_convert sdr_img "L"

/-- The byte-assembly stage of `create_apple_gainmap_jpeg` (hdr_gainmap.py
lines 398-438), with the two PIL JPEG encoder outputs abstracted as the
byte-list inputs: the gain-map JPEG receives the Apple gain-map XMP, then
everything goes through `_build_mpf_jpeg` with the Apple primary XMP. -/
noncomputable def apple_hdr_assemble (sdr_jpeg gm_jpeg : List ℕ) (peak_nits : ℕ) :
    List ℕ :=
  build_mpf_jpeg sdr_jpeg
    (inject_xmp_into_jpeg gm_jpeg (utf8_encode (build_apple_gainmap_xmp peak_nits)))
    (utf8_encode (build_apple_primary_xmp peak_nits)) peak_nits

/-- The byte-assembly stage of `create_ultra_hdr_jpeg` (hdr_gainmap.py lines
469-507), with the two PIL JPEG encoder outputs abstracted as the byte-list
inputs: the gain-map JPEG receives the Ultra HDR gain-map XMP, the primary
XMP carries the gain-map blob length, and the same `_build_mpf_jpeg` (which
injects the MakerApple Exif APP1) assembles the file. -/
noncomputable def ultra_hdr_assemble (sdr_jpeg gm_jpeg : List ℕ) (peak_nits : ℕ) :
    List ℕ :=
  build_mpf_jpeg sdr_jpeg
    (inject_xmp_into_jpeg gm_jpeg (utf8_encode (build_ultrahdr_gainmap_xmp peak_nits)))
    (utf8_encode (build_ultrahdr_primary_xmp peak_nits
      (inject_xmp_into_jpeg gm_jpeg
        (utf8_encode (build_ultrahdr_gainmap_xmp peak_nits))).length))
    peak_nits

/-! ## ICC profile synthesis (src/python/app/core/color_space.py) -/

/-- Modelling `struct.pack(">i", n)`: big-endian two's-complement int32; the
integers packed here are the already-rounded s15Fixed16 values
`round(val * 65536)` (the float linear algebra producing `val` is abstracted
into the integer parameters of `create_rgb_profile`). -/
def s15f16_bytes (n : ℤ) : List ℕ := pack32 (n % 2 ^ 32).toNat

/-- The source's `while len(tag_data) % 4: tag_data += b"\x00"` padding. -/
def pad4 (l : List ℕ) : List ℕ := l ++ List.replicate ((4 - l.length % 4) % 4) 0

/-- The `desc` textDescription tag (color_space.py lines 119-130): type
signature, ASCII count and text with NUL, Unicode language code and count,
71 bytes of ScriptCode block, padded to a 4-byte boundary. -/
def desc_tag (descB : List ℕ) : List ℕ :=
  pad4 ([0x64, 0x65, 0x73, 0x63] ++ [0, 0, 0, 0] ++ pack32 (descB.length + 1) ++
    descB ++ [0] ++ List.replicate 4 0 ++ List.replicate 4 0 ++ List.replicate 71 0)

/-- The `XYZ ` tag (color_space.py lines 133-134) over the three encoded
s15Fixed16 components. -/
def xyz_tag (x y z : ℤ) : List ℕ :=
  [0x58, 0x59, 0x5A, 0x20] ++ [0, 0, 0, 0] ++ s15f16_bytes x ++ s15f16_bytes y ++
    s15f16_bytes z

/-- The `curv` tag (color_space.py lines 142-145): count 1 and the u8.8
gamma `round(gamma * 256)`, padded with two bytes. -/
def curv_tag (gamma_u8_8 : ℕ) : List ℕ :=
  [0x63, 0x75, 0x72, 0x76] ++ [0, 0, 0, 0] ++ pack32 1 ++ pack16 gamma_u8_8 ++ [0, 0]

/-- The source's `tags` dict (color_space.py lines 148-158) in insertion
order; the second component indexes into `icc_bufs` and models Python object
identity (`id(data)`): rTRC, gTRC and bTRC all reference the one `curv_tag`
object (index 5) and cprt references the `desc_tag` object (index 0). -/
def icc_tag_list : List (List ℕ × ℕ) :=
  [([0x64, 0x65, 0x73, 0x63], 0), ([0x77, 0x74, 0x70, 0x74], 1),
   ([0x72, 0x58, 0x59, 0x5A], 2), ([0x67, 0x58, 0x59, 0x5A], 3),
   ([0x62, 0x58, 0x59, 0x5A], 4), ([0x72, 0x54, 0x52, 0x43], 5),
   ([0x67, 0x54, 0x52, 0x43], 5), ([0x62, 0x54, 0x52, 0x43], 5),
   ([0x63, 0x70, 0x72, 0x74], 0)]

/-- The offset-assignment loop of color_space.py lines 165-181: walk the tag
list; a buffer already placed (same object id) reuses its recorded offset,
a new buffer is placed at the end of the accumulated tag data, which is then
padded to a 4-byte boundary.  Returns the entry list (sig, offset, size)
and the final tag data. -/
def layout_tags (bufs : List (List ℕ)) (dataOffset : ℕ) :
    List (List ℕ × ℕ) → List (ℕ × ℕ) → List ℕ → List (List ℕ × ℕ × ℕ) × List ℕ
  | [], _seen, data => ([], data)
  | (sig, idx) :: rest, seen, data =>
    match seen.lookup idx with
    | some off =>
      let r := layout_tags bufs dataOffset rest seen data
      ((sig, off, (bufs.getD idx []).length) :: r.1, r.2)
    | none =>
      let off := dataOffset + data.length
      let r := layout_tags bufs dataOffset rest ((idx, off) :: seen)
        (pad4 (data ++ bufs.getD idx []))
      ((sig, off, (bufs.getD idx []).length) :: r.1, r.2)

/-- The six distinct tag payload buffers, in first-use order. -/
def icc_bufs (descB : List ℕ) (wX wY wZ rX rY rZ gX gY gZ bX bY bZ : ℤ)
    (gEnc : ℕ) : List (List ℕ) :=
  [desc_tag descB, xyz_tag wX wY wZ, xyz_tag rX rY rZ, xyz_tag gX gY gZ,
    xyz_tag bX bY bZ, curv_tag gEnc]

/-- The 128-byte ICC header (color_space.py lines 185-206): profile size,
CMM `none`, version 2.4.0, class `mntr`, spaces `RGB ` and `XYZ `, the six
u16 date-time fields, `acsp`, `MSFT`, zero flags/manufacturer/model/
attributes, Perceptual intent, the D50 illuminant (s15Fixed16 of
0.9642, 1.0, 0.8249, i.e. 63190, 65536, 54061), zero creator, profile ID
and reserved bytes. -/
def icc_header (size : ℕ) (y mo d h mi s : ℕ) : List ℕ :=
  pack32 size ++ [0x6E, 0x6F, 0x6E, 0x65] ++ pack32 0x02400000 ++
    [0x6D, 0x6E, 0x74, 0x72] ++ [0x52, 0x47, 0x42, 0x20] ++ [0x58, 0x59, 0x5A, 0x20] ++
    pack16 y ++ pack16 mo ++ pack16 d ++ pack16 h ++ pack16 mi ++ pack16 s ++
    [0x61, 0x63, 0x73, 0x70] ++ [0x4D, 0x53, 0x46, 0x54] ++
    List.replicate 4 0 ++ List.replicate 4 0 ++ List.replicate 4 0 ++
    List.replicate 8 0 ++ pack32 0 ++
    s15f16_bytes 63190 ++ s15f16_bytes 65536 ++ s15f16_bytes 54061 ++
    List.replicate 4 0 ++ List.replicate 16 0 ++ List.replicate 28 0

/-- The header tail after the profile-size field (for splitting off the
leading size bytes). -/
def icc_header_tail (y mo d h mi s : ℕ) : List ℕ :=
  [0x6E, 0x6F, 0x6E, 0x65] ++ pack32 0x02400000 ++
    [0x6D, 0x6E, 0x74, 0x72] ++ [0x52, 0x47, 0x42, 0x20] ++ [0x58, 0x59, 0x5A, 0x20] ++
    pack16 y ++ pack16 mo ++ pack16 d ++ pack16 h ++ pack16 mi ++ pack16 s ++
    [0x61, 0x63, 0x73, 0x70] ++ [0x4D, 0x53, 0x46, 0x54] ++
    List.replicate 4 0 ++ List.replicate 4 0 ++ List.replicate 4 0 ++
    List.replicate 8 0 ++ pack32 0 ++
    s15f16_bytes 63190 ++ s15f16_bytes 65536 ++ s15f16_bytes 54061 ++
    List.replicate 4 0 ++ List.replicate 16 0 ++ List.replicate 28 0

/-- The tag entries of the synthesized profile (sig, offset, size). -/
def icc_tag_entries (descB : List ℕ) (wX wY wZ rX rY rZ gX gY gZ bX bY bZ : ℤ)
    (gEnc : ℕ) : List (List ℕ × ℕ × ℕ) :=
  (layout_tags (icc_bufs descB wX wY wZ rX rY rZ gX gY gZ bX bY bZ gEnc) 240
    icc_tag_list [] []).1

/-- Embedding of `_create_rgb_profile` (color_space.py lines 69-216):
header (data region starts at 128 + 4 + 12·9 = 240), tag table (count
followed by sig/offset/size entries) and the deduplicated tag data.  The
numeric inputs are the already-encoded integers: the s15Fixed16 colorant and
white-point components and the u8.8 gamma. -/
def create_rgb_profile (descB : List ℕ) (wX wY wZ rX rY rZ gX gY gZ bX bY bZ : ℤ)
    (gEnc : ℕ) (y mo d h mi s : ℕ) : List ℕ :=
  let r := layout_tags (icc_bufs descB wX wY wZ rX rY rZ gX gY gZ bX bY bZ gEnc) 240
    icc_tag_list [] []
  icc_header (240 + r.2.length) y mo d h mi s ++ pack32 9 ++
    (r.1.map (fun e => e.1 ++ pack32 e.2.1 ++ pack32 e.2.2)).flatten ++ r.2

/-! ## PNG container (src/python/app/core/pq.py, lines 71-163)

`zlib.crc32` is the standard IEEE CRC-32 (polynomial 0xEDB88320,
reflected, init/final xor 0xFFFFFFFF), embedded here bit by bit;
`& 0xFFFFFFFF` is the explicit `% 2 ^ 32`.  `zlib.compress` outputs are
abstracted as universally quantified byte lists (`idat_compressed`, and
the `some c` payload of the optional ICC argument).  The Python truthiness
test `if icc_data` / `if iccp_chunk` is modelled by the `Option`: `none`
stands for `icc_data` being `None` or empty, `some c` for a truthy
`icc_data` whose compressed stream is `c`. -/

/-- One shift-xor step of the reflected CRC-32 polynomial 0xEDB88320. -/
def crc_step_bit (c : ℕ) : ℕ := if c % 2 = 1 then Nat.xor (c / 2) 0xEDB88320 else c / 2

/-- Eight bit steps after xoring in one message byte. -/
def crc_step_byte (c b : ℕ) : ℕ :=
  crc_step_bit (crc_step_bit (crc_step_bit (crc_step_bit (crc_step_bit (crc_step_bit
    (crc_step_bit (crc_step_bit (Nat.xor c b))))))))

/-- `zlib.crc32(l) & 0xFFFFFFFF` (pq.py line 74). -/
def crc32 (l : List ℕ) : ℕ :=
  Nat.xor (l.foldl crc_step_byte 0xFFFFFFFF) 0xFFFFFFFF % 2 ^ 32

/-- `_png_chunk` (pq.py lines 71-75): length(4 BE) + type(4) + data + CRC32(4 BE). -/
def png_chunk (chunk_type data : List ℕ) : List ℕ :=
  pack32 data.length ++ chunk_type ++ data ++ pack32 (crc32 (chunk_type ++ data))

/-- `b"ICC Profile\x00"` (pq.py line 95). -/
def icc_profile_name : List ℕ := [73, 67, 67, 32, 80, 114, 111, 102, 105, 108, 101, 0]

/-- `_make_cicp_chunk` (pq.py lines 78-89): payload (9, 16, 0, 1). -/
def make_cicp_chunk : List ℕ := png_chunk [0x63, 0x49, 0x43, 0x50] [9, 16, 0, 1]

/-- `_make_iccp_chunk` (pq.py lines 92-99), over the compressed profile bytes. -/
def make_iccp_chunk (compressed_icc : List ℕ) : List ℕ :=
  png_chunk [0x69, 0x43, 0x43, 0x50] (icc_profile_name ++ [0] ++ compressed_icc)

/-- `b"\x89PNG\r\n\x1a\n"` (pq.py line 130). -/
def png_signature : List ℕ := [0x89, 0x50, 0x4E, 0x47, 0x0D, 0x0A, 0x1A, 0x0A]

/-- `struct.pack(">IIBBBBB", w, h, 16, 2, 0, 0, 0)` (pq.py line 133). -/
def ihdr_data (w h : ℕ) : List ℕ := pack32 w ++ pack32 h ++ [16, 2, 0, 0, 0]

/-- The byte stream `save_pq_png` writes to the file (pq.py lines 129-163), with
the width, height, compressed IDAT stream and optional compressed ICC stream as
parameters. -/
def save_pq_png_bytes (w h : ℕ) (idat_compressed : List ℕ)
    (icc : Option (List ℕ)) : List ℕ :=
  png_signature ++ png_chunk [0x49, 0x48, 0x44, 0x52] (ihdr_data w h) ++
    make_cicp_chunk ++
    (match icc with
     | some c => make_iccp_chunk c
     | none => []) ++
    png_chunk [0x49, 0x44, 0x41, 0x54] idat_compressed ++
    png_chunk [0x49, 0x45, 0x4E, 0x44] []

/-- A PNG chunk reader, the inverse view used to state C7: from a byte stream
it yields the list of (type, data, stored CRC field) triples, advancing by
12 + declared length each step. -/
def read_chunks (l : List ℕ) : List (List ℕ × List ℕ × ℕ) :=
  if h : l = [] then []
  else
    (byte_slice l 4 4, byte_slice l 8 (readU32 l 0), readU32 l (8 + readU32 l 0)) ::
      read_chunks (l.drop (12 + readU32 l 0))
termination_by l.length
decreasing_by
  have hl : 0 < l.length := List.length_pos.mpr h
  simp [List.length_drop]
  omega

/-! ## Theorems -/

theorem pack32_length (n : ℕ) : (pack32 n).length = 4 := rfl

theorem le_rpow_of_pow_le (x r : ℝ) (p q : ℕ) (hq : q ≠ 0) (hx : 0 ≤ x)
    (h : r ^ q ≤ x ^ p) : r ≤ x ^ ((p : ℝ) / q) := by
  have hb : (0 : ℝ) ≤ x ^ ((p : ℝ) / q) := Real.rpow_nonneg hx _
  have key : (x ^ ((p : ℝ) / q)) ^ q = x ^ p := by
    rw [← Real.rpow_natCast (x ^ ((p : ℝ) / q)) q, ← Real.rpow_mul hx,
      div_mul_cancel₀, Real.rpow_natCast]
    exact_mod_cast hq
  exact le_of_pow_le_pow_left₀ hq hb (by rw [key]; exact h)

theorem rpow_le_of_pow_le (x r : ℝ) (p q : ℕ) (hq : q ≠ 0) (hx : 0 ≤ x) (hr : 0 ≤ r)
    (h : x ^ p ≤ r ^ q) : x ^ ((p : ℝ) / q) ≤ r := by
  have key : (x ^ ((p : ℝ) / q)) ^ q = x ^ p := by
    rw [← Real.rpow_natCast (x ^ ((p : ℝ) / q)) q, ← Real.rpow_mul hx,
      div_mul_cancel₀, Real.rpow_natCast]
    exact_mod_cast hq
  exact le_of_pow_le_pow_left₀ hq hr (by rw [key]; exact h)

theorem div_pow_le_div_pow (a b c d n m : ℕ) (hb : 0 < b) (hd : 0 < d)
    (h : a ^ n * d ^ m ≤ c ^ m * b ^ n) : ((a : ℝ) / b) ^ n ≤ ((c : ℝ) / d) ^ m := by
  rw [div_pow, div_pow]
  rw [div_le_div_iff₀ (by positivity) (by positivity)]
  exact_mod_cast h

theorem nat_pow_le_frac_pow (a c d n m : ℕ) (hd : 0 < d)
    (h : a ^ n * d ^ m ≤ c ^ m) : ((a : ℝ)) ^ n ≤ ((c : ℝ) / d) ^ m := by
  rw [div_pow, le_div_iff₀ (by positivity)]
  exact_mod_cast h

theorem frac_pow_le_nat_pow (a b c n m : ℕ) (hb : 0 < b)
    (h : a ^ n ≤ c ^ m * b ^ n) : ((a : ℝ) / b) ^ n ≤ ((c : ℝ)) ^ m := by
  rw [div_pow, div_le_iff₀ (by positivity)]
  exact_mod_cast h

theorem clip_nonneg (x hi : ℝ) (h : 0 ≤ hi) : 0 ≤ clip x 0 hi :=
  le_min (le_max_right x 0) h

theorem clip_le_hi (x lo hi : ℝ) : clip x lo hi ≤ hi := min_le_right _ _

theorem clip_eq_self (x lo hi : ℝ) (h1 : lo ≤ x) (h2 : x ≤ hi) : clip x lo hi = x := by
  unfold clip
  rw [max_eq_left h1, min_eq_left h2]

/-- Helper: the PQ OETF of the source maps every real input into [0, 1]
(the input is clipped to [0, 1] before exponentiation). -/
theorem pq_oetf_mem (L : ℝ) : 0 ≤ pq_oetf L ∧ pq_oetf L ≤ 1 := by
  unfold pq_oetf
  have hc0 : (0 : ℝ) ≤ clip L 0 1 := clip_nonneg L 1 zero_le_one
  have hc1 : clip L 0 1 ≤ 1 := clip_le_hi L 0 1
  have ht0 : (0 : ℝ) ≤ clip L 0 1 ^ (0.1593017578125 : ℝ) := Real.rpow_nonneg hc0 _
  have ht1 : clip L 0 1 ^ (0.1593017578125 : ℝ) ≤ 1 :=
    Real.rpow_le_one hc0 hc1 (by norm_num)
  have hden : (0 : ℝ) < 1 + 18.6875 * clip L 0 1 ^ (0.1593017578125 : ℝ) := by nlinarith
  have hr0 : (0 : ℝ) ≤ (0.8359375 + 18.8515625 * clip L 0 1 ^ (0.1593017578125 : ℝ)) /
      (1 + 18.6875 * clip L 0 1 ^ (0.1593017578125 : ℝ)) := by
    apply div_nonneg (by nlinarith) (le_of_lt hden)
  have hr1 : (0.8359375 + 18.8515625 * clip L 0 1 ^ (0.1593017578125 : ℝ)) /
      (1 + 18.6875 * clip L 0 1 ^ (0.1593017578125 : ℝ)) ≤ 1 := by
    rw [div_le_one hden]
    nlinarith
  exact ⟨Real.rpow_nonneg hr0 _, Real.rpow_le_one hr0 hr1 (by norm_num)⟩

/-- Helper: the ratio inside `pq_oetf` is monotone in the exponentiated input. -/
theorem pq_ratio_mono (p q : ℝ) (hp : 0 ≤ p) (hpq : p ≤ q) :
    (0.8359375 + 18.8515625 * p) / (1 + 18.6875 * p) ≤
      (0.8359375 + 18.8515625 * q) / (1 + 18.6875 * q) := by
  have hq : (0 : ℝ) ≤ q := le_trans hp hpq
  rw [div_le_div_iff₀ (by nlinarith) (by nlinarith)]
  nlinarith [mul_nonneg (sub_nonneg.2 hpq) hp]

/-- C9 counterexample: `pq_oetf 0` is not 0; it exceeds 2^(-1074), the
smallest positive float64 (so it is not within 1 ULP of float64 of 0). -/
theorem pq_oetf_zero_ne_zero :
    pq_oetf 0 ≠ 0 ∧ 1 / 2 ^ 1074 < pq_oetf 0 := by
  have hz : pq_oetf 0 = (0.8359375 : ℝ) ^ (78.84375 : ℝ) := by
    unfold pq_oetf
    rw [clip_eq_self 0 0 1 le_rfl zero_le_one,
      Real.zero_rpow (by norm_num)]
    norm_num
  have hlow : (0.8359375 : ℝ) ^ (79 : ℕ) ≤ (0.8359375 : ℝ) ^ (78.84375 : ℝ) := by
    rw [← Real.rpow_natCast (0.8359375 : ℝ) 79]
    exact Real.rpow_le_rpow_of_exponent_ge (by norm_num) (by norm_num) (by norm_num)
  have hnum : (1 : ℝ) / 2 ^ 1074 < (0.8359375 : ℝ) ^ (79 : ℕ) := by
    rw [show (0.8359375 : ℝ) = 107 / 128 by norm_num]
    rw [div_pow, div_lt_div_iff₀ (by positivity) (by positivity)]
    norm_num
  constructor
  · rw [hz]
    positivity
  · rw [hz]
    linarith

/-- C9 (amended): `pq_oetf 1 = 1` exactly, while `pq_oetf 0` equals
c1^m2 = 0.8359375^78.84375, a value strictly between 2^(-21) and 2^(-20)
(about 7·10^(-7)), hence not 0. -/
theorem pq_oetf_endpoints :
    pq_oetf 1 = 1 ∧ pq_oetf 0 = (0.8359375 : ℝ) ^ (78.84375 : ℝ) ∧
    1 / 2 ^ 21 < pq_oetf 0 ∧ pq_oetf 0 < 1 / 2 ^ 20 := by
  have hz : pq_oetf 0 = (0.8359375 : ℝ) ^ (78.84375 : ℝ) := by
    unfold pq_oetf
    rw [clip_eq_self 0 0 1 le_rfl zero_le_one,
      Real.zero_rpow (by norm_num)]
    norm_num
  have h1 : pq_oetf 1 = 1 := by
    unfold pq_oetf
    rw [clip_eq_self 1 0 1 zero_le_one le_rfl, Real.one_rpow]
    rw [show (0.8359375 + 18.8515625 * 1) / (1 + 18.6875 * (1 : ℝ)) = 1 by norm_num]
    exact Real.one_rpow _
  have hlow : (0.8359375 : ℝ) ^ (79 : ℕ) ≤ (0.8359375 : ℝ) ^ (78.84375 : ℝ) := by
    rw [← Real.rpow_natCast (0.8359375 : ℝ) 79]
    exact Real.rpow_le_rpow_of_exponent_ge (by norm_num) (by norm_num) (by norm_num)
  have hhigh : (0.8359375 : ℝ) ^ (78.84375 : ℝ) ≤ (0.8359375 : ℝ) ^ (78 : ℕ) := by
    rw [← Real.rpow_natCast (0.8359375 : ℝ) 78]
    exact Real.rpow_le_rpow_of_exponent_ge (by norm_num) (by norm_num) (by norm_num)
  have hn1 : (1 : ℝ) / 2 ^ 21 < (0.8359375 : ℝ) ^ (79 : ℕ) := by
    rw [show (0.8359375 : ℝ) = 107 / 128 by norm_num]
    rw [div_pow, div_lt_div_iff₀ (by positivity) (by positivity)]
    norm_num
  have hn2 : (0.8359375 : ℝ) ^ (78 : ℕ) < 1 / 2 ^ 20 := by
    rw [show (0.8359375 : ℝ) = 107 / 128 by norm_num]
    rw [div_pow, div_lt_div_iff₀ (by positivity) (by positivity)]
    norm_num
  exact ⟨h1, hz, by rw [hz]; linarith, by rw [hz]; linarith⟩

set_option exponentiation.threshold 70000 in
set_option maxRecDepth 20000 in
set_option maxHeartbeats 1000000 in
theorem nat_bound_y_low :
    (57200883 : ℕ) ^ 8192 * 100 ^ 1305 ≤ 3 ^ 1305 * (10 ^ 8) ^ 8192 := by decide

set_option exponentiation.threshold 70000 in
set_option maxRecDepth 20000 in
set_option maxHeartbeats 1000000 in
theorem nat_bound_y_high :
    (3 : ℕ) ^ 1305 * (10 ^ 8) ^ 8192 ≤ 57200884 ^ 8192 * 100 ^ 1305 := by decide

set_option exponentiation.threshold 70000 in
set_option maxRecDepth 20000 in
set_option maxHeartbeats 2000000 in
theorem nat_bound_p_low :
    (621862827855 : ℕ) ^ 32 * 149624512136 ^ 2523 ≤
      148725730679 ^ 2523 * (10 ^ 12) ^ 32 := by decide

set_option exponentiation.threshold 70000 in
set_option maxRecDepth 20000 in
set_option maxHeartbeats 2000000 in
theorem nat_bound_p_high :
    (12393811091 : ℕ) ^ 2523 * (10 ^ 12) ^ 32 ≤
      621862839516 ^ 32 * 12468709544 ^ 2523 := by decide

/-- Helper: certified bracket of the value the PQ pipeline produces for a
white pixel (s = 255) at peak 300 nits: 65535·PQ(0.03) lies in
[40753.5, 40754). -/
theorem pq_channel_255_300_bracket :
    40753.5 ≤ pq_channel 255 300 * 65535 ∧ pq_channel 255 300 * 65535 < 40754 := by
  have hsrgb : srgb_eotf ((255 : ℕ) / 255) = 1 := by
    unfold srgb_eotf
    rw [if_neg (by push_cast; norm_num)]
    push_cast
    rw [show ((255 : ℝ) / 255 + 0.055) / 1.055 = 1 by norm_num]
    exact Real.one_rpow _
  have hL : clip (srgb_eotf ((255 : ℕ) / 255) * ((300 : ℕ) / 10000)) 0 1 = 3 / 100 := by
    rw [hsrgb]
    push_cast
    rw [show (1 : ℝ) * (300 / 10000) = 3 / 100 by norm_num]
    exact clip_eq_self _ 0 1 (by norm_num) (by norm_num)
  have hcin : clip ((3 : ℝ) / 100) 0 1 = 3 / 100 :=
    clip_eq_self _ 0 1 (by norm_num) (by norm_num)
  have hm1 : (0.1593017578125 : ℝ) = (1305 : ℕ) / (8192 : ℕ) := by norm_num
  have hm2 : (78.84375 : ℝ) = (2523 : ℕ) / (32 : ℕ) := by norm_num
  have hu_low : (57200883 : ℝ) / 10 ^ 8 ≤ ((3 : ℝ) / 100) ^ ((1305 : ℕ) / (8192 : ℕ) : ℝ) := by
    apply le_rpow_of_pow_le _ _ _ _ (by norm_num) (by norm_num)
    have := div_pow_le_div_pow 57200883 (10 ^ 8) 3 100 8192 1305 (by norm_num) (by norm_num)
      nat_bound_y_low
    convert this using 2 <;> norm_num
  have hu_high : ((3 : ℝ) / 100) ^ ((1305 : ℕ) / (8192 : ℕ) : ℝ) ≤ (57200884 : ℝ) / 10 ^ 8 := by
    apply rpow_le_of_pow_le _ _ _ _ (by norm_num) (by norm_num) (by norm_num)
    have := div_pow_le_div_pow 3 100 57200884 (10 ^ 8) 1305 8192 (by norm_num) (by norm_num)
      nat_bound_y_high
    convert this using 2 <;> norm_num
  set u := ((3 : ℝ) / 100) ^ ((1305 : ℕ) / (8192 : ℕ) : ℝ) with hu_def
  have hu0 : (0 : ℝ) ≤ u := Real.rpow_nonneg (by norm_num) _
  have hw1 : (0.8359375 + 18.8515625 * ((57200883 : ℝ) / 10 ^ 8)) /
      (1 + 18.6875 * ((57200883 : ℝ) / 10 ^ 8)) = 148725730679 / 149624512136 := by
    norm_num
  have hw2 : (0.8359375 + 18.8515625 * ((57200884 : ℝ) / 10 ^ 8)) /
      (1 + 18.6875 * ((57200884 : ℝ) / 10 ^ 8)) = 12393811091 / 12468709544 := by
    norm_num
  have hF_low : (148725730679 : ℝ) / 149624512136 ≤
      (0.8359375 + 18.8515625 * u) / (1 + 18.6875 * u) := by
    rw [← hw1]
    exact pq_ratio_mono _ _ (by norm_num) hu_low
  have hF_high : (0.8359375 + 18.8515625 * u) / (1 + 18.6875 * u) ≤
      (12393811091 : ℝ) / 12468709544 := by
    rw [← hw2]
    exact pq_ratio_mono _ _ hu0 hu_high
  have hF0 : (0 : ℝ) ≤ (0.8359375 + 18.8515625 * u) / (1 + 18.6875 * u) := by
    apply div_nonneg (by nlinarith) (by nlinarith)
  have hP_low : (621862827855 : ℝ) / 10 ^ 12 ≤
      ((0.8359375 + 18.8515625 * u) / (1 + 18.6875 * u)) ^ ((2523 : ℕ) / (32 : ℕ) : ℝ) := by
    apply le_rpow_of_pow_le _ _ _ _ (by norm_num) hF0
    calc ((621862827855 : ℝ) / 10 ^ 12) ^ 32
        ≤ ((148725730679 : ℝ) / 149624512136) ^ 2523 := by
          have := div_pow_le_div_pow 621862827855 (10 ^ 12) 148725730679 149624512136
            32 2523 (by norm_num) (by norm_num) nat_bound_p_low
          convert this using 2 <;> norm_num
      _ ≤ ((0.8359375 + 18.8515625 * u) / (1 + 18.6875 * u)) ^ 2523 :=
          pow_le_pow_left₀ (by norm_num) hF_low 2523
  have hP_high :
      ((0.8359375 + 18.8515625 * u) / (1 + 18.6875 * u)) ^ ((2523 : ℕ) / (32 : ℕ) : ℝ) ≤
        (621862839516 : ℝ) / 10 ^ 12 := by
    apply rpow_le_of_pow_le _ _ _ _ (by norm_num) hF0 (by norm_num)
    calc ((0.8359375 + 18.8515625 * u) / (1 + 18.6875 * u)) ^ 2523
        ≤ ((12393811091 : ℝ) / 12468709544) ^ 2523 :=
          pow_le_pow_left₀ hF0 hF_high 2523
      _ ≤ ((621862839516 : ℝ) / 10 ^ 12) ^ 32 := by
          have := div_pow_le_div_pow 12393811091 12468709544 621862839516 (10 ^ 12)
            2523 32 (by norm_num) (by norm_num) nat_bound_p_high
          convert this using 2 <;> norm_num
  have hPc : pq_channel 255 300 =
      ((0.8359375 + 18.8515625 * u) / (1 + 18.6875 * u)) ^ ((2523 : ℕ) / (32 : ℕ) : ℝ) := by
    unfold pq_channel pq_oetf
    rw [hL, hcin, hm1, hm2]
  rw [hPc]
  constructor
  · nlinarith [hP_low]
  · nlinarith [hP_high]

/-- C2 counterexample: at the white pixel s = 255 with peak 300 nits the
emitted uint16 is 40753 = ⌊65535·PQ(0.03)⌋, while rounding as the claim
states would give 40754; the quantisation is not rounding. -/
theorem pq_quantize_round_counterexample :
    quant_channel 255 300 = 40753 ∧
    round (65535 * pq_channel 255 300) = (40754 : ℤ) ∧
    (quant_channel 255 300 : ℤ) ≠ round (65535 * pq_channel 255 300) := by
  obtain ⟨hlo, hhi⟩ := pq_channel_255_300_bracket
  have hfloor : (⌊pq_channel 255 300 * 65535⌋ : ℤ) = 40753 := by
    rw [Int.floor_eq_iff]
    constructor
    · push_cast; linarith
    · push_cast; linarith
  have hclip : clip (pq_channel 255 300 * 65535) 0 65535 = pq_channel 255 300 * 65535 :=
    clip_eq_self _ 0 65535 (by linarith) (by linarith)
  have hq : quant_channel 255 300 = 40753 := by
    unfold quant_channel
    rw [hclip, hfloor]
    rfl
  have hround : round (65535 * pq_channel 255 300) = (40754 : ℤ) := by
    rw [round_eq, mul_comm, Int.floor_eq_iff]
    constructor
    · push_cast; linarith
    · push_cast; linarith
  refine ⟨hq, hround, ?_⟩
  rw [hq, hround]
  decide

/-- C2 (amended): for every sRGB sample and peak, the uint16 quantisation of
the PQ pipeline (pq.py lines 61 and 126) is truncation: it equals
⌊65535·PQ_OETF(clamp(linear(srgb)·peak/10000, 0, 1))⌋, and the result is
clamped to (in fact never exceeds) 65535. -/
theorem pq_quantize_is_floor (s peak : ℕ) :
    quant_channel s peak = (Int.floor (pq_channel s peak * 65535)).toNat ∧
    quant_channel s peak ≤ 65535 := by
  obtain ⟨h0, h1⟩ := pq_oetf_mem (clip (srgb_eotf (s / 255) * (peak / 10000)) 0 1)
  have hv0 : (0 : ℝ) ≤ pq_channel s peak * 65535 := by
    unfold pq_channel
    nlinarith
  have hv1 : pq_channel s peak * 65535 ≤ 65535 := by
    unfold pq_channel
    nlinarith
  have hclip : clip (pq_channel s peak * 65535) 0 65535 = pq_channel s peak * 65535 :=
    clip_eq_self _ 0 65535 hv0 hv1
  constructor
  · unfold quant_channel
    rw [hclip]
  · unfold quant_channel
    rw [hclip]
    have : (⌊pq_channel s peak * 65535⌋ : ℤ) ≤ 65535 := by
      have := Int.floor_le_floor hv1
      simpa using this
    omega

theorem byte_at_append (P Q : List ℕ) (i : ℕ) :
    byte_at (P ++ Q) (P.length + i) = byte_at Q i := by
  unfold byte_at
  rw [List.drop_append]

theorem readU32_append (P Q : List ℕ) (n : ℕ) (h : n < 2 ^ 32) :
    readU32 (P ++ (pack32 n ++ Q)) P.length = n := by
  have h0 := byte_at_append P (pack32 n ++ Q) 0
  have h1 := byte_at_append P (pack32 n ++ Q) 1
  have h2 := byte_at_append P (pack32 n ++ Q) 2
  have h3 := byte_at_append P (pack32 n ++ Q) 3
  simp only [Nat.add_zero] at h0
  unfold readU32
  rw [h0, h1, h2, h3]
  show n % 2 ^ 32 / 2 ^ 24 * 2 ^ 24 + n % 2 ^ 24 / 2 ^ 16 * 2 ^ 16 +
      n % 2 ^ 16 / 2 ^ 8 * 2 ^ 8 + n % 2 ^ 8 = n
  omega

theorem byte_at_append_head (P Q : List ℕ) : byte_at (P ++ Q) P.length = byte_at Q 0 := by
  have := byte_at_append P Q 0
  simpa using this

theorem readU32_at (l P Q : List ℕ) (n pos : ℕ) (hl : l = P ++ (pack32 n ++ Q))
    (hpos : pos = P.length) (hn : n < 2 ^ 32) : readU32 l pos = n := by
  rw [hl, hpos]
  exact readU32_append P Q n hn

theorem pack16_length (n : ℕ) : (pack16 n).length = 2 := rfl

theorem take2_shape (l : List ℕ) (a b : ℕ) (h : l.take 2 = [a, b]) :
    ∃ t, l = a :: b :: t := by
  match l, h with
  | x :: y :: t, h =>
    simp at h
    exact ⟨t, by rw [h.1, h.2]⟩

theorem mpf_head_length : mpf_head.length = 58 := by
  norm_num [mpf_head, pack16_length, pack32_length]

theorem mpf_mid_length : mpf_mid.length = 12 := by
  norm_num [mpf_mid, pack16_length, pack32_length]

theorem mpf_payload_with_length (a b c : ℕ) : (mpf_payload_with a b c).length = 86 := by
  norm_num [mpf_payload_with, mpf_head_length, mpf_mid_length, mpf_tail,
    pack16_length, pack32_length]

theorem mpf_payload_raw_length (g : ℕ) : (mpf_payload_raw g).length = 86 :=
  mpf_payload_with_length 0 0 g

/-- Helper: patching the two placeholder u32s at payload offsets 58
(`pos_entry1_size`) and 78 (`pos_entry2_offset`) yields the payload with the
size and offset in place. -/
theorem patch_mpf (g sz off : ℕ) :
    pack_into (pack_into (mpf_payload_raw g) 58 sz) 78 off = mpf_payload_with sz off g := by
  have h1 : pack_into (mpf_payload_with 0 0 g) 58 sz = mpf_payload_with sz 0 g := by
    unfold pack_into mpf_payload_with
    rw [show mpf_head ++ pack32 0 ++ mpf_mid ++ pack32 g ++ pack32 0 ++ mpf_tail =
        mpf_head ++ (pack32 0 ++ (mpf_mid ++ (pack32 g ++ (pack32 0 ++ mpf_tail)))) by
      simp [List.append_assoc]]
    rw [List.take_left' mpf_head_length]
    rw [show mpf_head ++ (pack32 0 ++ (mpf_mid ++ (pack32 g ++ (pack32 0 ++ mpf_tail)))) =
        (mpf_head ++ pack32 0) ++ (mpf_mid ++ (pack32 g ++ (pack32 0 ++ mpf_tail))) by
      simp [List.append_assoc]]
    rw [show (58 : ℕ) + 4 = 62 by norm_num]
    rw [List.drop_left' (by norm_num [mpf_head_length, pack32_length] :
      (mpf_head ++ pack32 0).length = 62)]
    simp [List.append_assoc]
  have h2 : pack_into (mpf_payload_with sz 0 g) 78 off = mpf_payload_with sz off g := by
    unfold pack_into mpf_payload_with
    rw [show mpf_head ++ pack32 sz ++ mpf_mid ++ pack32 g ++ pack32 0 ++ mpf_tail =
        (mpf_head ++ pack32 sz ++ mpf_mid ++ pack32 g) ++ ((pack32 0) ++ mpf_tail) by
      simp [List.append_assoc]]
    rw [List.take_left' (by norm_num [mpf_head_length, mpf_mid_length, pack32_length] :
      (mpf_head ++ pack32 sz ++ mpf_mid ++ pack32 g).length = 78)]
    rw [show (mpf_head ++ pack32 sz ++ mpf_mid ++ pack32 g) ++ ((pack32 0) ++ mpf_tail) =
        ((mpf_head ++ pack32 sz ++ mpf_mid ++ pack32 g) ++ pack32 0) ++ mpf_tail by
      simp [List.append_assoc]]
    rw [show (78 : ℕ) + 4 = 82 by norm_num]
    rw [List.drop_left' (by norm_num [mpf_head_length, mpf_mid_length, pack32_length] :
      ((mpf_head ++ pack32 sz ++ mpf_mid ++ pack32 g) ++ pack32 0).length = 82)]
  rw [show mpf_payload_raw g = mpf_payload_with 0 0 g from rfl, h1, h2]

/-- Helper: the assembled MPF JPEG, written as a flat concatenation with the
patched MPF APP2 segment in place. -/
theorem build_mpf_jpeg_eq (sdr gm xmp : List ℕ) (peak : ℕ) :
    build_mpf_jpeg sdr gm xmp peak =
      [0xFF, 0xD8] ++ exif_segment sdr peak ++ xmp_app1_of xmp ++
        ([0xFF, 0xE2] ++ pack16 88 ++
          mpf_payload_with (primary_total_of sdr xmp peak)
            (primary_total_of sdr xmp peak - bo_pos_of sdr xmp peak) gm.length) ++
        sdr.drop 2 ++ gm := by
  simp only [build_mpf_jpeg]
  rw [patch_mpf]
  rw [mpf_payload_with_length, mpf_payload_raw_length]
  unfold primary_total_of bo_pos_of
  norm_num

theorem xmp_header_bytes_length : xmp_header_bytes.length = 29 := by decide

theorem xmp_app1_of_length (xmp : List ℕ) :
    (xmp_app1_of xmp).length = 33 + xmp.length := by
  simp [xmp_app1_of, pack16_length, xmp_header_bytes_length] <;> omega

theorem bo_pos_le_primary_total (sdr xmp : List ℕ) (peak : ℕ) :
    bo_pos_of sdr xmp peak ≤ primary_total_of sdr xmp peak := by
  unfold bo_pos_of primary_total_of
  omega

/-- C1: for every SDR and gain-map JPEG blob beginning with FF D8 and every
primary XMP and peak, the assembled MPF file carries MP-Entry-1's size field
(at file offset bo_pos + 54, i.e. payload offset 58) equal to
primary_total, MP-Entry-2's offset field (at file offset bo_pos + 74, i.e.
payload offset 78) equal to primary_total - bo_pos, the file is
primary_total + len(gainmap) bytes long, and seeking bo_pos + the re-read
secondary offset lands on the bytes FF D8 — the secondary JPEG's SOI. -/
theorem mpf_entries_and_secondary_soi (sdr gm xmp : List ℕ) (peak : ℕ)
    (hs : sdr.take 2 = [0xFF, 0xD8]) (hg : gm.take 2 = [0xFF, 0xD8])
    (hsize : primary_total_of sdr xmp peak < 2 ^ 32) :
    readU32 (build_mpf_jpeg sdr gm xmp peak) (bo_pos_of sdr xmp peak + 54) =
      primary_total_of sdr xmp peak ∧
    readU32 (build_mpf_jpeg sdr gm xmp peak) (bo_pos_of sdr xmp peak + 74) =
      primary_total_of sdr xmp peak - bo_pos_of sdr xmp peak ∧
    (build_mpf_jpeg sdr gm xmp peak).length =
      primary_total_of sdr xmp peak + gm.length ∧
    byte_at (build_mpf_jpeg sdr gm xmp peak)
      (bo_pos_of sdr xmp peak +
        readU32 (build_mpf_jpeg sdr gm xmp peak) (bo_pos_of sdr xmp peak + 74)) = 0xFF ∧
    byte_at (build_mpf_jpeg sdr gm xmp peak)
      (bo_pos_of sdr xmp peak +
        readU32 (build_mpf_jpeg sdr gm xmp peak) (bo_pos_of sdr xmp peak + 74) + 1) =
      0xD8 := by
  have h1 : readU32 (build_mpf_jpeg sdr gm xmp peak) (bo_pos_of sdr xmp peak + 54) =
      primary_total_of sdr xmp peak := by
    apply readU32_at _
      ([0xFF, 0xD8] ++ (exif_segment sdr peak ++ (xmp_app1_of xmp ++
        ([0xFF, 0xE2] ++ (pack16 88 ++ mpf_head)))))
      (mpf_mid ++ (pack32 gm.length ++
        (pack32 (primary_total_of sdr xmp peak - bo_pos_of sdr xmp peak) ++
          (mpf_tail ++ (sdr.drop 2 ++ gm)))))
      _ _ _ _ hsize
    · rw [build_mpf_jpeg_eq]
      simp [mpf_payload_with, List.append_assoc]
    · simp [bo_pos_of, pack16_length, mpf_head_length] <;> omega
  have h2 : readU32 (build_mpf_jpeg sdr gm xmp peak) (bo_pos_of sdr xmp peak + 74) =
      primary_total_of sdr xmp peak - bo_pos_of sdr xmp peak := by
    apply readU32_at _
      ([0xFF, 0xD8] ++ (exif_segment sdr peak ++ (xmp_app1_of xmp ++
        ([0xFF, 0xE2] ++ (pack16 88 ++ (mpf_head ++
          (pack32 (primary_total_of sdr xmp peak) ++ (mpf_mid ++ pack32 gm.length))))))))
      (mpf_tail ++ (sdr.drop 2 ++ gm))
      _ _ _ _ (lt_of_le_of_lt (Nat.sub_le _ _) hsize)
    · rw [build_mpf_jpeg_eq]
      simp [mpf_payload_with, List.append_assoc]
    · simp [bo_pos_of, pack16_length, pack32_length, mpf_head_length,
        mpf_mid_length] <;> omega
  have hlen : (build_mpf_jpeg sdr gm xmp peak).length =
      primary_total_of sdr xmp peak + gm.length := by
    rw [build_mpf_jpeg_eq]
    simp [mpf_payload_with_length, primary_total_of, pack16_length] <;> omega
  obtain ⟨t, ht⟩ := take2_shape gm 0xFF 0xD8 hg
  have hP3 : build_mpf_jpeg sdr gm xmp peak =
      ([0xFF, 0xD8] ++ exif_segment sdr peak ++ xmp_app1_of xmp ++
        ([0xFF, 0xE2] ++ pack16 88 ++
          mpf_payload_with (primary_total_of sdr xmp peak)
            (primary_total_of sdr xmp peak - bo_pos_of sdr xmp peak) gm.length) ++
        sdr.drop 2) ++ gm := by
    rw [build_mpf_jpeg_eq]
  have hP3len : ([0xFF, 0xD8] ++ exif_segment sdr peak ++ xmp_app1_of xmp ++
      ([0xFF, 0xE2] ++ pack16 88 ++
        mpf_payload_with (primary_total_of sdr xmp peak)
          (primary_total_of sdr xmp peak - bo_pos_of sdr xmp peak) gm.length) ++
      sdr.drop 2).length = primary_total_of sdr xmp peak := by
    simp [mpf_payload_with_length, primary_total_of, pack16_length] <;> omega
  have hBT := bo_pos_le_primary_total sdr xmp peak
  have hb0 : byte_at (build_mpf_jpeg sdr gm xmp peak)
      (primary_total_of sdr xmp peak) = 0xFF := by
    rw [hP3]
    have := byte_at_append ([0xFF, 0xD8] ++ exif_segment sdr peak ++ xmp_app1_of xmp ++
      ([0xFF, 0xE2] ++ pack16 88 ++
        mpf_payload_with (primary_total_of sdr xmp peak)
          (primary_total_of sdr xmp peak - bo_pos_of sdr xmp peak) gm.length) ++
      sdr.drop 2) gm 0
    rw [hP3len] at this
    simp only [Nat.add_zero] at this
    rw [this, ht]
    rfl
  have hb1 : byte_at (build_mpf_jpeg sdr gm xmp peak)
      (primary_total_of sdr xmp peak + 1) = 0xD8 := by
    rw [hP3]
    have := byte_at_append ([0xFF, 0xD8] ++ exif_segment sdr peak ++ xmp_app1_of xmp ++
      ([0xFF, 0xE2] ++ pack16 88 ++
        mpf_payload_with (primary_total_of sdr xmp peak)
          (primary_total_of sdr xmp peak - bo_pos_of sdr xmp peak) gm.length) ++
      sdr.drop 2) gm 1
    rw [hP3len] at this
    rw [this, ht]
    rfl
  refine ⟨h1, h2, hlen, ?_, ?_⟩
  · rw [h2, show bo_pos_of sdr xmp peak +
      (primary_total_of sdr xmp peak - bo_pos_of sdr xmp peak) =
      primary_total_of sdr xmp peak by omega]
    exact hb0
  · rw [h2, show bo_pos_of sdr xmp peak +
      (primary_total_of sdr xmp peak - bo_pos_of sdr xmp peak) + 1 =
      primary_total_of sdr xmp peak + 1 by omega]
    exact hb1

set_option maxRecDepth 20000 in
set_option maxHeartbeats 1000000 in
/-- Witness for C1 at concrete four-byte JPEG blobs and an empty XMP. -/
theorem mpf_entries_and_secondary_soi_witness :
    (([255, 216, 255, 217] : List ℕ).take 2 = [0xFF, 0xD8] ∧
      (([255, 216, 255, 217] : List ℕ).take 2 = [0xFF, 0xD8]) ∧
      primary_total_of [255, 216, 255, 217] [] 1000 < 2 ^ 32) ∧
    readU32 (build_mpf_jpeg [255, 216, 255, 217] [255, 216, 255, 217] [] 1000)
      (bo_pos_of [255, 216, 255, 217] [] 1000 + 54) =
      primary_total_of [255, 216, 255, 217] [] 1000 ∧
    readU32 (build_mpf_jpeg [255, 216, 255, 217] [255, 216, 255, 217] [] 1000)
      (bo_pos_of [255, 216, 255, 217] [] 1000 + 74) =
      primary_total_of [255, 216, 255, 217] [] 1000 -
        bo_pos_of [255, 216, 255, 217] [] 1000 := by
  refine ⟨⟨by decide, by decide, by decide⟩, ?_⟩
  obtain ⟨w1, w2, -⟩ := mpf_entries_and_secondary_soi [255, 216, 255, 217]
    [255, 216, 255, 217] [] 1000 (by decide) (by decide) (by decide)
  exact ⟨w1, w2⟩

/-- Helper: Python `round` never rounds a value `z ≤ w` past the integer `w`. -/
theorem py_round_le_natCast (z : ℝ) (w : ℕ) (h : z ≤ w) : py_round z ≤ w := by
  have hfw : (⌊(w : ℝ) + 1 / 2⌋ : ℤ) = w := by
    rw [Int.floor_eq_iff]
    constructor
    · push_cast; linarith
    · push_cast; linarith
  unfold py_round
  split
  · rename_i hfrac
    have hzw : ⌊z⌋ ≤ (w : ℤ) := by
      have : ⌊z⌋ ≤ ⌊(w : ℝ)⌋ := Int.floor_le_floor h
      simpa using this
    have hne : ⌊z⌋ ≠ (w : ℤ) := by
      intro he
      have hz : z = (w : ℝ) + 1 / 2 := by
        have := Int.floor_add_fract z
        rw [he, hfrac] at this
        push_cast at this
        linarith
      rw [hz] at h
      linarith
    have : ⌊z⌋ + 1 ≤ (w : ℤ) := by omega
    split <;> omega
  · rw [round_eq]
    calc ⌊z + 1 / 2⌋ ≤ ⌊(w : ℝ) + 1 / 2⌋ := Int.floor_le_floor (by linarith)
    _ = w := hfw

/-- Helper: Python `round` of a non-negative value is non-negative. -/
theorem py_round_nonneg (z : ℝ) (h : 0 ≤ z) : 0 ≤ py_round z := by
  unfold py_round
  have hfl : (0 : ℤ) ≤ ⌊z⌋ ∨ ⌊z⌋ = -1 ∨ ⌊z⌋ < -1 := by omega
  have hge : (0 : ℤ) ≤ ⌊z⌋ := Int.floor_nonneg.mpr h
  split
  · split <;> omega
  · rw [round_eq]
    have : (0 : ℤ) ≤ ⌊z + 1 / 2⌋ := Int.floor_nonneg.mpr (by linarith)
    omega

/-- C10: for every width ≥ 1, height ≥ 1 and apl_percent in [1, 100],
`calc_rectangle` returns (x, y, rect_w, rect_h) with 0 ≤ x, 0 ≤ y,
x + rect_w ≤ width and y + rect_h ≤ height, where
rect_w = round(width·√(apl_percent/100)), rect_h = round(height·√(apl_percent/100))
and x, y are the floor-halved margins. -/
theorem calc_rectangle_inside_frame (width height apl_percent : ℕ)
    (hw : 1 ≤ width) (hh : 1 ≤ height)
    (ha1 : 1 ≤ apl_percent) (ha2 : apl_percent ≤ 100) :
    0 ≤ (calc_rectangle width height apl_percent).1 ∧
    0 ≤ (calc_rectangle width height apl_percent).2.1 ∧
    (calc_rectangle width height apl_percent).1 +
      (calc_rectangle width height apl_percent).2.2.1 ≤ width ∧
    (calc_rectangle width height apl_percent).2.1 +
      (calc_rectangle width height apl_percent).2.2.2 ≤ height ∧
    (calc_rectangle width height apl_percent).2.2.1 =
      py_round (width * Real.sqrt (apl_percent / 100)) ∧
    (calc_rectangle width height apl_percent).2.2.2 =
      py_round (height * Real.sqrt (apl_percent / 100)) ∧
    (calc_rectangle width height apl_percent).1 =
      ((width : ℤ) - (calc_rectangle width height apl_percent).2.2.1) / 2 ∧
    (calc_rectangle width height apl_percent).2.1 =
      ((height : ℤ) - (calc_rectangle width height apl_percent).2.2.2) / 2 := by
  have hs0 : (0 : ℝ) ≤ Real.sqrt (apl_percent / 100) := Real.sqrt_nonneg _
  have hs1 : Real.sqrt (apl_percent / 100) ≤ 1 := by
    apply Real.sqrt_le_one.mpr
    rw [div_le_one (by norm_num)]
    exact_mod_cast ha2
  have hbound : ∀ d : ℕ, py_round (d * Real.sqrt (apl_percent / 100)) ≤ d := by
    intro d
    apply py_round_le_natCast
    calc (d : ℝ) * Real.sqrt (apl_percent / 100) ≤ d * 1 :=
      mul_le_mul_of_nonneg_left hs1 (by positivity)
    _ = d := mul_one _
  have hnn : ∀ d : ℕ, 0 ≤ py_round (d * Real.sqrt (apl_percent / 100)) := by
    intro d
    exact py_round_nonneg _ (by positivity)
  have hpart : ∀ d : ℕ, 0 ≤ ((d : ℤ) - py_round (d * Real.sqrt (apl_percent / 100))) / 2 ∧
      ((d : ℤ) - py_round (d * Real.sqrt (apl_percent / 100))) / 2 +
        py_round (d * Real.sqrt (apl_percent / 100)) ≤ d := by
    intro d
    have h1 := hbound d
    have h2 := hnn d
    constructor
    · exact Int.ediv_nonneg (by omega) (by norm_num)
    · have h3 : ((d : ℤ) - py_round (d * Real.sqrt (apl_percent / 100))) / 2 ≤
          (d : ℤ) - py_round (d * Real.sqrt (apl_percent / 100)) :=
        Int.ediv_le_self 2 (by omega)
      omega
  refine ⟨(hpart width).1, (hpart height).1, ?_, ?_, rfl, rfl, rfl, rfl⟩
  · exact (hpart width).2
  · exact (hpart height).2

/-- Witness for C10 at concrete input (1080, 1920, 50). -/
theorem calc_rectangle_inside_frame_witness :
    0 ≤ (calc_rectangle 1080 1920 50).1 ∧
    0 ≤ (calc_rectangle 1080 1920 50).2.1 ∧
    (calc_rectangle 1080 1920 50).1 + (calc_rectangle 1080 1920 50).2.2.1 ≤ 1080 ∧
    (calc_rectangle 1080 1920 50).2.1 + (calc_rectangle 1080 1920 50).2.2.2 ≤ 1920 := by
  obtain ⟨h1, h2, h3, h4, -⟩ :=
    calc_rectangle_inside_frame 1080 1920 50 (by norm_num) (by norm_num) (by norm_num)
      (by norm_num)
  exact ⟨h1, h2, h3, h4⟩

set_option exponentiation.threshold 20000 in
set_option maxRecDepth 20000 in
set_option maxHeartbeats 1000000 in
theorem nat_bound_log_low : (2 : ℕ) ^ 12848 * 203 ^ 5585 ≤ 1000 ^ 5585 := by
  decide

set_option exponentiation.threshold 20000 in
set_option maxRecDepth 20000 in
set_option maxHeartbeats 1000000 in
theorem nat_bound_log_high : (1000 : ℕ) ^ 223 ≤ 2 ^ 513 * 203 ^ 223 := by
  decide

set_option exponentiation.threshold 20000 in
set_option maxRecDepth 8000 in
/-- Helper: certified rational bracket of log2(1000/203). -/
theorem headroom_1000_bracket :
    (12848 : ℝ) / 5585 ≤ Real.logb 2 (1000 / 203) ∧
      Real.logb 2 (1000 / 203) ≤ (513 : ℝ) / 223 := by
  constructor
  · rw [Real.le_logb_iff_rpow_le (by norm_num) (by norm_num)]
    have h2 : ((2 : ℝ)) ^ (12848 : ℕ) ≤ ((1000 : ℝ) / 203) ^ (5585 : ℕ) := by
      have := nat_pow_le_frac_pow 2 1000 203 12848 5585 (by norm_num) nat_bound_log_low
      simpa using this
    have h3 := rpow_le_of_pow_le 2 ((1000 : ℝ) / 203) 12848 5585 (by norm_num)
      (by norm_num) (by norm_num) h2
    exact_mod_cast h3
  · rw [Real.logb_le_iff_le_rpow (by norm_num) (by norm_num)]
    have h2 : ((1000 : ℝ) / 203) ^ (223 : ℕ) ≤ ((2 : ℝ)) ^ (513 : ℕ) := by
      have := frac_pow_le_nat_pow 1000 203 2 223 513 (by norm_num) nat_bound_log_high
      simpa using this
    have h3 := le_rpow_of_pow_le 2 ((1000 : ℝ) / 203) 513 223 (by norm_num)
      (by norm_num) h2
    exact_mod_cast h3

/-- Helper: the headroom for peak 1000 rounds to 2.300448 at six decimals. -/
theorem headroom_round : round (calc_gain_map_max 1000 * 1000000) = (2300448 : ℤ) := by
  have hcast : calc_gain_map_max 1000 = Real.logb 2 ((1000 : ℝ) / 203) := by
    unfold calc_gain_map_max
    norm_num
  obtain ⟨h1, h2⟩ := headroom_1000_bracket
  rw [hcast, round_eq, Int.floor_eq_iff]
  constructor
  · push_cast
    linarith
  · push_cast
    linarith

set_option maxRecDepth 8000 in
/-- Helper: the formatted headroom string for peak 1000. -/
theorem fmt6_headroom_1000 : fmt6 (calc_gain_map_max 1000) = "2.300448" := by
  unfold fmt6
  rw [headroom_round]
  decide

/-- Helper: the primary XMP packet is carried verbatim inside the file
`_build_mpf_jpeg` assembles. -/
theorem xmp_infix_mpf (sdr gm xmp : List ℕ) (peak : ℕ) :
    xmp <:+: build_mpf_jpeg sdr gm xmp peak := by
  refine ⟨[0xFF, 0xD8] ++ exif_segment sdr peak ++
      ([0xFF, 0xE1] ++ pack16 ((xmp_header_bytes ++ xmp).length + 2) ++ xmp_header_bytes),
    (let raw := mpf_payload_raw gm.length
     let primary_total := 2 + (exif_segment sdr peak).length + (xmp_app1_of xmp).length +
       (4 + raw.length) + (sdr.drop 2).length
     let bo_pos := 2 + (exif_segment sdr peak).length + (xmp_app1_of xmp).length + 2 + 2 + 4
     let patched := pack_into (pack_into raw 58 primary_total) 78 (primary_total - bo_pos)
     ([0xFF, 0xE2] ++ pack16 (patched.length + 2) ++ patched) ++ sdr.drop 2 ++ gm), ?_⟩
  simp only [build_mpf_jpeg, xmp_app1_of, List.append_assoc, List.length_append,
    List.length_cons, List.length_nil]

set_option maxRecDepth 100000 in
set_option maxHeartbeats 2000000 in
/-- C8 counterexample: the Apple primary XMP produced with peak = 1000 does
not contain the string HDRGainMap:HDRGainMapHeadroom='2.300000'; the actual
headroom log2(1000/203) = 2.300448… is serialized as '2.300448'. -/
theorem apple_primary_xmp_no_2_300000 :
    ¬ ("HDRGainMap:HDRGainMapHeadroom='2.300000'".toList <:+:
        (build_apple_primary_xmp 1000).toList) := by
  unfold build_apple_primary_xmp
  rw [fmt6_headroom_1000]
  decide

set_option maxRecDepth 100000 in
set_option maxHeartbeats 2000000 in
/-- C8 (amended): the headroom for peak 1000 is log2(1000/203) =
2.300448 ± 10⁻⁶, the primary XMP contains
HDRGainMap:HDRGainMapHeadroom='2.300448' (six decimals of the actual
headroom, not '2.300000'), and the Apple HDR JPEG assembly embeds that XMP
packet verbatim. -/
theorem apple_primary_xmp_headroom :
    calc_gain_map_max 1000 = Real.logb 2 ((1000 : ℝ) / 203) ∧
    |calc_gain_map_max 1000 - 2.300448| < 1 / 1000000 ∧
    ("HDRGainMap:HDRGainMapHeadroom='2.300448'".toList <:+:
      (build_apple_primary_xmp 1000).toList) ∧
    (∀ sdr gm : List ℕ,
      utf8_encode (build_apple_primary_xmp 1000) <:+: apple_hdr_assemble sdr gm 1000) := by
  have hcast : calc_gain_map_max 1000 = Real.logb 2 ((1000 : ℝ) / 203) := by
    unfold calc_gain_map_max
    norm_num
  refine ⟨hcast, ?_, ?_, ?_⟩
  · obtain ⟨h1, h2⟩ := headroom_1000_bracket
    rw [hcast, abs_sub_lt_iff]
    constructor
    · linarith
    · linarith
  · unfold build_apple_primary_xmp
    rw [fmt6_headroom_1000]
    decide
  · intro sdr gm
    exact xmp_infix_mpf sdr _ _ 1000

set_option maxRecDepth 8000 in
/-- C3 counterexample: the MakerNote count field written at offset 14 of the
synthesized TIFF is 30, the length of the MakerApple IFD alone, not 38, the
length including the 8-byte "Apple\0\0\0" signature. -/
theorem makernote_count_counterexample :
    readU32 (makerapple_tiff 1000) 14 = 30 ∧
    (apple_sig ++ build_makerapple_ifd 1000).length = 38 ∧
    readU32 (makerapple_tiff 1000) 14 ≠ (apple_sig ++ build_makerapple_ifd 1000).length := by
  decide

set_option maxRecDepth 8000 in
/-- Helper: the MakerApple IFD does not depend on the peak value. -/
theorem build_makerapple_ifd_eq (peak_nits : ℕ) : build_makerapple_ifd peak_nits =
    [0, 2, 0, 33, 0, 11, 0, 0, 0, 1, 63, 129, 71, 174, 0, 48, 0, 11, 0, 0, 0, 1,
      60, 35, 156, 82, 0, 0, 0, 0] := by
  unfold build_makerapple_ifd pack16 pack32 f32_1_01 f32_0_009986
  norm_num

set_option maxRecDepth 8000 in
/-- Helper: the synthesized TIFF block does not depend on the peak value. -/
theorem makerapple_tiff_eq (peak_nits : ℕ) : makerapple_tiff peak_nits =
    [77, 77, 0, 42, 0, 0, 0, 8, 0, 1, 146, 124, 0, 7, 0, 0, 0, 30, 0, 0, 0, 26,
      0, 0, 0, 0, 65, 112, 112, 108, 101, 0, 0, 0, 0, 2, 0, 33, 0, 11, 0, 0, 0, 1,
      63, 129, 71, 174, 0, 48, 0, 11, 0, 0, 0, 1, 60, 35, 156, 82, 0, 0, 0, 0] := by
  unfold makerapple_tiff build_makerapple_ifd pack16 pack32 f32_1_01 f32_0_009986 apple_sig
  norm_num

set_option maxRecDepth 8000 in
set_option maxHeartbeats 1000000 in
/-- C3 (amended): in every synthesized MakerApple EXIF, IFD0 has exactly one
entry: tag 0x927C (MakerNote), type 7, count equal to the length of the
MakerApple IFD excluding the 8-byte "Apple\0\0\0" signature (count = 30),
and value-offset 26; the value is the signature followed by the MakerApple
IFD, which holds exactly two FLOAT (type 11, count 1) entries, tag 0x0021 =
1.01f and tag 0x0030 = 0.009986f, followed by next-IFD-offset 0. -/
theorem makerapple_exif_structure (peak_nits : ℕ) :
    readU16 (makerapple_tiff peak_nits) 8 = 1 ∧
    readU16 (makerapple_tiff peak_nits) 10 = 0x927C ∧
    readU16 (makerapple_tiff peak_nits) 12 = 7 ∧
    readU32 (makerapple_tiff peak_nits) 14 = (build_makerapple_ifd peak_nits).length ∧
    (build_makerapple_ifd peak_nits).length = 30 ∧
    readU32 (makerapple_tiff peak_nits) 18 = 26 ∧
    byte_slice (makerapple_tiff peak_nits) 26 8 = apple_sig ∧
    readU16 (makerapple_tiff peak_nits) 34 = 2 ∧
    readU16 (makerapple_tiff peak_nits) 36 = 0x0021 ∧
    readU16 (makerapple_tiff peak_nits) 38 = 11 ∧
    readU32 (makerapple_tiff peak_nits) 40 = 1 ∧
    byte_slice (makerapple_tiff peak_nits) 44 4 = f32_1_01 ∧
    readU16 (makerapple_tiff peak_nits) 48 = 0x0030 ∧
    readU16 (makerapple_tiff peak_nits) 50 = 11 ∧
    readU32 (makerapple_tiff peak_nits) 52 = 1 ∧
    byte_slice (makerapple_tiff peak_nits) 56 4 = f32_0_009986 ∧
    readU32 (makerapple_tiff peak_nits) 60 = 0 ∧
    (makerapple_tiff peak_nits).length = 64 := by
  rw [makerapple_tiff_eq, build_makerapple_ifd_eq]
  decide

set_option maxRecDepth 8000 in
/-- Helper: the synthesized Exif APP1 segment as a byte literal (it does not
depend on the peak value). -/
theorem makerapple_exif_app1_eq (peak_nits : ℕ) : makerapple_exif_app1 peak_nits =
    [255, 225, 0, 72, 69, 120, 105, 102, 0, 0, 77, 77, 0, 42, 0, 0, 0, 8, 0, 1,
      146, 124, 0, 7, 0, 0, 0, 30, 0, 0, 0, 26, 0, 0, 0, 0, 65, 112, 112, 108,
      101, 0, 0, 0, 0, 2, 0, 33, 0, 11, 0, 0, 0, 1, 63, 129, 71, 174, 0, 48, 0,
      11, 0, 0, 0, 1, 60, 35, 156, 82, 0, 0, 0, 0] := by
  unfold makerapple_exif_app1
  rw [makerapple_tiff_eq]
  unfold exif_sig pack16
  norm_num

theorem makerapple_exif_app1_length (peak_nits : ℕ) :
    (makerapple_exif_app1 peak_nits).length = 74 := by
  rw [makerapple_exif_app1_eq]
  decide

set_option maxRecDepth 8000 in
/-- Helper: when the SDR blob starts with SOI and the marker walk finds no
pre-existing Exif APP1, the Exif segment placed in the assembled file is
exactly the synthesized MakerApple APP1. -/
theorem exif_segment_no_preexisting (sdr : List ℕ) (peak : ℕ)
    (hs : sdr.take 2 = [0xFF, 0xD8])
    (hfind : find_exif_app1 sdr sdr.length 2 = none) :
    exif_segment sdr peak = makerapple_exif_app1 peak := by
  obtain ⟨t, ht⟩ := take2_shape sdr 0xFF 0xD8 hs
  subst ht
  simp only [exif_segment, inject_makerapple_exif, hfind]
  simp only [List.take_succ_cons, List.take_zero, List.drop_succ_cons, List.drop_zero]
  have hne : ([255, 216] : List ℕ) ++ makerapple_exif_app1 peak ++ t ≠ 255 :: 216 :: t := by
    intro h
    have hlg := congrArg List.length h
    simp [makerapple_exif_app1_length] at hlg
  rw [if_pos hne]
  have hdrop : (([255, 216] : List ℕ) ++ makerapple_exif_app1 peak ++ t).drop 2 =
      makerapple_exif_app1 peak ++ t := by
    rw [show ([255, 216] : List ℕ) ++ makerapple_exif_app1 peak ++ t =
      ([255, 216] : List ℕ) ++ (makerapple_exif_app1 peak ++ t) by simp]
    exact List.drop_left' rfl
  rw [hdrop]
  have htake2 : (makerapple_exif_app1 peak ++ t).take 2 = [0xFF, 0xE1] := by
    rw [makerapple_exif_app1_eq]
    rfl
  have hcond : (makerapple_exif_app1 peak ++ t ≠ [] ∧
      (makerapple_exif_app1 peak ++ t).take 2 = [0xFF, 0xE1]) := by
    constructor
    · intro h
      have hlg := congrArg List.length h
      simp [makerapple_exif_app1_length] at hlg
    · exact htake2
  rw [if_pos hcond]
  have hr16 : readU16 (makerapple_exif_app1 peak ++ t) 2 = 72 := by
    rw [makerapple_exif_app1_eq]
    rfl
  rw [hr16]
  rw [show (2 : ℕ) + 72 = 74 by norm_num]
  exact List.take_left' (makerapple_exif_app1_length peak)

set_option maxRecDepth 8000 in
/-- C4 counterexample: the Ultra HDR JPEG assembled from concrete minimal
JPEG blobs with peak = 1000 carries, directly after SOI, the 74-byte
MakerApple Exif APP1 segment (bytes 36-43 are "Apple\0\0\0"), contradicting
the claim that no MakerApple EXIF segment is present. -/
theorem ultra_hdr_makerapple_counterexample :
    ((ultra_hdr_assemble [255, 216, 255, 217] [255, 216, 255, 217] 1000).drop 2).take 74 =
      [255, 225, 0, 72, 69, 120, 105, 102, 0, 0, 77, 77, 0, 42, 0, 0, 0, 8, 0, 1,
        146, 124, 0, 7, 0, 0, 0, 30, 0, 0, 0, 26, 0, 0, 0, 0, 65, 112, 112, 108,
        101, 0, 0, 0, 0, 2, 0, 33, 0, 11, 0, 0, 0, 1, 63, 129, 71, 174, 0, 48, 0,
        11, 0, 0, 0, 1, 60, 35, 156, 82, 0, 0, 0, 0] := by
  unfold ultra_hdr_assemble
  rw [build_mpf_jpeg_eq,
    exif_segment_no_preexisting [255, 216, 255, 217] 1000 (by decide) (by decide)]
  simp only [List.append_assoc]
  rw [List.drop_left' (show ([0xFF, 0xD8] : List ℕ).length = 2 from rfl)]
  rw [List.take_left' (makerapple_exif_app1_length 1000)]
  rw [makerapple_exif_app1_eq]

set_option maxRecDepth 8000 in
/-- C4 (amended): every Ultra HDR JPEG assembled from an SDR blob with no
pre-existing Exif APP1 contains the MakerApple Exif APP1 right after SOI
(the Ultra HDR path reuses the same MPF builder as the Apple path), and the
gain-map image is the full-resolution luminance conversion of the SDR image:
no downsampling takes place (no GAINMAP_SCALE constant exists in the
source). -/
theorem ultra_hdr_makerapple_and_fullres_gainmap (sdr gm : List ℕ) (peak : ℕ)
    (hs : sdr.take 2 = [0xFF, 0xD8])
    (hfind : find_exif_app1 sdr sdr.length 2 = none) :
    ((ultra_hdr_assemble sdr gm peak).drop 2).take 74 = makerapple_exif_app1 peak ∧
    (∀ img : Img, (generate_gain_map img peak).width = img.width ∧
      (generate_gain_map img peak).height = img.height) := by
  constructor
  · unfold ultra_hdr_assemble
    rw [build_mpf_jpeg_eq, exif_segment_no_preexisting sdr peak hs hfind]
    simp only [List.append_assoc]
    rw [List.drop_left' (show ([0xFF, 0xD8] : List ℕ).length = 2 from rfl)]
    rw [List.take_left' (makerapple_exif_app1_length peak)]
  · intro img
    exact ⟨rfl, rfl⟩

set_option maxRecDepth 8000 in
/-- Witness for C4 (amended) at concrete minimal JPEG blobs. -/
theorem ultra_hdr_makerapple_and_fullres_gainmap_witness :
    (([255, 216, 255, 217] : List ℕ).take 2 = [0xFF, 0xD8] ∧
      find_exif_app1 [255, 216, 255, 217] ([255, 216, 255, 217] : List ℕ).length 2 =
        none) ∧
    (((ultra_hdr_assemble [255, 216, 255, 217] [255, 216, 255, 217] 1000).drop 2).take 74 =
        makerapple_exif_app1 1000 ∧
      (∀ img : Img, (generate_gain_map img 1000).width = img.width ∧
        (generate_gain_map img 1000).height = img.height)) :=
  ⟨⟨by decide, by decide⟩,
    ultra_hdr_makerapple_and_fullres_gainmap [255, 216, 255, 217] [255, 216, 255, 217]
      1000 (by decide) (by decide)⟩

theorem s15f16_bytes_length (n : ℤ) : (s15f16_bytes n).length = 4 := rfl

theorem xyz_tag_length (x y z : ℤ) : (xyz_tag x y z).length = 20 := rfl

theorem curv_tag_length (g : ℕ) : (curv_tag g).length = 16 := rfl

theorem pad4_length_mod (l : List ℕ) : (pad4 l).length % 4 = 0 := by
  simp [pad4]
  omega

theorem pad4_eq_self (l : List ℕ) (h : l.length % 4 = 0) : pad4 l = l := by
  simp [pad4, h]

theorem desc_tag_length_mod (d : List ℕ) : (desc_tag d).length % 4 = 0 :=
  pad4_length_mod _

theorem desc_tag_length_bounds (d : List ℕ) :
    d.length + 92 ≤ (desc_tag d).length ∧ (desc_tag d).length ≤ d.length + 95 := by
  simp [desc_tag, pad4, pack32_length]
  omega

/-- Helper: the offset-assignment loop evaluated on the nine-tag list: desc
is placed at 240, the four XYZ tags follow, the single curv buffer lands at
240 + desc + 80 and is shared by rTRC, gTRC and bTRC, and cprt reuses the
desc offset; the data region holds each distinct buffer once. -/
theorem icc_layout_eval (descB : List ℕ) (wX wY wZ rX rY rZ gX gY gZ bX bY bZ : ℤ)
    (gEnc : ℕ) :
    layout_tags (icc_bufs descB wX wY wZ rX rY rZ gX gY gZ bX bY bZ gEnc) 240
      icc_tag_list [] [] =
      ([([0x64, 0x65, 0x73, 0x63], 240, (desc_tag descB).length),
        ([0x77, 0x74, 0x70, 0x74], 240 + (desc_tag descB).length, 20),
        ([0x72, 0x58, 0x59, 0x5A], 240 + ((desc_tag descB).length + 20), 20),
        ([0x67, 0x58, 0x59, 0x5A], 240 + ((desc_tag descB).length + 40), 20),
        ([0x62, 0x58, 0x59, 0x5A], 240 + ((desc_tag descB).length + 60), 20),
        ([0x72, 0x54, 0x52, 0x43], 240 + ((desc_tag descB).length + 80), 16),
        ([0x67, 0x54, 0x52, 0x43], 240 + ((desc_tag descB).length + 80), 16),
        ([0x62, 0x54, 0x52, 0x43], 240 + ((desc_tag descB).length + 80), 16),
        ([0x63, 0x70, 0x72, 0x74], 240, (desc_tag descB).length)],
       desc_tag descB ++ xyz_tag wX wY wZ ++ xyz_tag rX rY rZ ++ xyz_tag gX gY gZ ++
         xyz_tag bX bY bZ ++ curv_tag gEnc) := by
  have hD := desc_tag_length_mod descB
  have p0 : pad4 (desc_tag descB) = desc_tag descB := pad4_eq_self _ hD
  have p1 : pad4 (desc_tag descB ++ xyz_tag wX wY wZ) =
      desc_tag descB ++ xyz_tag wX wY wZ := by
    apply pad4_eq_self
    simp [xyz_tag_length]
    omega
  have p2 : pad4 (desc_tag descB ++ (xyz_tag wX wY wZ ++ xyz_tag rX rY rZ)) =
      desc_tag descB ++ (xyz_tag wX wY wZ ++ xyz_tag rX rY rZ) := by
    apply pad4_eq_self
    simp [xyz_tag_length]
    omega
  have p3 : pad4 (desc_tag descB ++ (xyz_tag wX wY wZ ++ (xyz_tag rX rY rZ ++
      xyz_tag gX gY gZ))) = desc_tag descB ++ (xyz_tag wX wY wZ ++ (xyz_tag rX rY rZ ++
      xyz_tag gX gY gZ)) := by
    apply pad4_eq_self
    simp [xyz_tag_length]
    omega
  have p4 : pad4 (desc_tag descB ++ (xyz_tag wX wY wZ ++ (xyz_tag rX rY rZ ++
      (xyz_tag gX gY gZ ++ xyz_tag bX bY bZ)))) =
      desc_tag descB ++ (xyz_tag wX wY wZ ++ (xyz_tag rX rY rZ ++
      (xyz_tag gX gY gZ ++ xyz_tag bX bY bZ))) := by
    apply pad4_eq_self
    simp [xyz_tag_length]
    omega
  have p5 : pad4 (desc_tag descB ++ (xyz_tag wX wY wZ ++ (xyz_tag rX rY rZ ++
      (xyz_tag gX gY gZ ++ (xyz_tag bX bY bZ ++ curv_tag gEnc))))) =
      desc_tag descB ++ (xyz_tag wX wY wZ ++ (xyz_tag rX rY rZ ++
      (xyz_tag gX gY gZ ++ (xyz_tag bX bY bZ ++ curv_tag gEnc)))) := by
    apply pad4_eq_self
    simp [xyz_tag_length, curv_tag_length]
    omega
  simp [layout_tags, icc_tag_list, icc_bufs, List.lookup, p0, p1, p2, p3, p4, p5,
    xyz_tag_length, curv_tag_length, List.length_append] <;> omega

theorem icc_header_split (sz y mo d h mi s : ℕ) :
    icc_header sz y mo d h mi s = pack32 sz ++ icc_header_tail y mo d h mi s := by
  simp [icc_header, icc_header_tail, List.append_assoc]

theorem icc_header_length (sz y mo d h mi s : ℕ) :
    (icc_header sz y mo d h mi s).length = 128 := by
  simp [icc_header, pack16_length, pack32_length, s15f16_bytes, List.length_append]

theorem create_rgb_profile_length (descB : List ℕ)
    (wX wY wZ rX rY rZ gX gY gZ bX bY bZ : ℤ) (gEnc : ℕ) (y mo d h mi s : ℕ) :
    (create_rgb_profile descB wX wY wZ rX rY rZ gX gY gZ bX bY bZ gEnc
      y mo d h mi s).length = (desc_tag descB).length + 336 := by
  simp only [create_rgb_profile]
  rw [icc_layout_eval]
  simp [icc_header_length, pack16_length, pack32_length, xyz_tag_length,
    curv_tag_length, List.length_append] <;> omega

/-- C5: for every synthesized ICC profile, the header is exactly 128 bytes,
the declared profile-size field (the first four bytes) equals the buffer's
actual byte length — so the two build-time assertions hold — and the first
four tag offsets are at least 128 + 4 + 12·9 and divisible by 4. -/
theorem icc_profile_invariants (descB : List ℕ)
    (wX wY wZ rX rY rZ gX gY gZ bX bY bZ : ℤ) (gEnc : ℕ) (y mo d h mi s : ℕ)
    (hd : descB.length < 1000) :
    (∀ sz, (icc_header sz y mo d h mi s).length = 128) ∧
    readU32 (create_rgb_profile descB wX wY wZ rX rY rZ gX gY gZ bX bY bZ gEnc
      y mo d h mi s) 0 =
      (create_rgb_profile descB wX wY wZ rX rY rZ gX gY gZ bX bY bZ gEnc
        y mo d h mi s).length ∧
    (∀ e ∈ (icc_tag_entries descB wX wY wZ rX rY rZ gX gY gZ bX bY bZ gEnc).take 4,
      128 + 4 + 12 * 9 ≤ e.2.1 ∧ e.2.1 % 4 = 0) := by
  have hDb := desc_tag_length_bounds descB
  have hDm := desc_tag_length_mod descB
  refine ⟨fun sz => icc_header_length sz y mo d h mi s, ?_, ?_⟩
  · rw [create_rgb_profile_length]
    simp only [create_rgb_profile]
    rw [icc_layout_eval]
    rw [show 240 + (desc_tag descB ++ xyz_tag wX wY wZ ++ xyz_tag rX rY rZ ++
        xyz_tag gX gY gZ ++ xyz_tag bX bY bZ ++ curv_tag gEnc).length =
        (desc_tag descB).length + 336 by
      simp [xyz_tag_length, curv_tag_length] <;> omega]
    rw [icc_header_split, List.append_assoc, List.append_assoc, List.append_assoc]
    exact readU32_at _ [] _ ((desc_tag descB).length + 336) 0 rfl rfl (by omega)
  · intro e he
    unfold icc_tag_entries at he
    rw [icc_layout_eval] at he
    simp only [List.take_succ_cons, List.take_zero, List.mem_cons,
      List.not_mem_nil, or_false] at he
    rcases he with h | h | h | h <;> subst h <;>
      refine ⟨by simp <;> omega, by simp <;> omega⟩

/-- Witness for C5 at the concrete Display P3 inputs (the source's
chromaticities solved and encoded to s15Fixed16, gamma 2.2 −> 563). -/
theorem icc_profile_invariants_witness :
    (([68, 105, 115, 112, 108, 97, 121, 32, 80, 51] : List ℕ).length < 1000) ∧
    readU32 (create_rgb_profile [68, 105, 115, 112, 108, 97, 121, 32, 80, 51]
      62289 65536 71372 31888 15006 0 17411 45334 2957 12990 5196 68416 563
      2024 1 1 0 0 0) 0 =
      (create_rgb_profile [68, 105, 115, 112, 108, 97, 121, 32, 80, 51]
        62289 65536 71372 31888 15006 0 17411 45334 2957 12990 5196 68416 563
        2024 1 1 0 0 0).length := by
  refine ⟨by decide, ?_⟩
  obtain ⟨-, h2, -⟩ := icc_profile_invariants
    [68, 105, 115, 112, 108, 97, 121, 32, 80, 51]
    62289 65536 71372 31888 15006 0 17411 45334 2957 12990 5196 68416 563
    2024 1 1 0 0 0 (by decide)
  exact h2

theorem byte_slice_pos (l P Q : List ℕ) (n pos : ℕ) (hl : l = P ++ Q)
    (hpos : pos = P.length) : byte_slice l pos n = Q.take n := by
  rw [hl, hpos]
  unfold byte_slice
  rw [List.drop_left]

/-- C6: rTRC, gTRC and bTRC all carry the same offset 240 + desc + 80, at
which the single `curv` byte buffer is stored (once), and cprt carries the
desc tag's offset 240; the profile's total length counts each distinct
buffer exactly once (240 + desc + 20·4 + 16 bytes). -/
theorem icc_trc_dedup (descB : List ℕ)
    (wX wY wZ rX rY rZ gX gY gZ bX bY bZ : ℤ) (gEnc : ℕ) (y mo d h mi s : ℕ) :
    ((icc_tag_entries descB wX wY wZ rX rY rZ gX gY gZ bX bY bZ gEnc).getD 5
        ([], 0, 0)).2.1 = 240 + ((desc_tag descB).length + 80) ∧
    ((icc_tag_entries descB wX wY wZ rX rY rZ gX gY gZ bX bY bZ gEnc).getD 6
        ([], 0, 0)).2.1 = 240 + ((desc_tag descB).length + 80) ∧
    ((icc_tag_entries descB wX wY wZ rX rY rZ gX gY gZ bX bY bZ gEnc).getD 7
        ([], 0, 0)).2.1 = 240 + ((desc_tag descB).length + 80) ∧
    ((icc_tag_entries descB wX wY wZ rX rY rZ gX gY gZ bX bY bZ gEnc).getD 8
        ([], 0, 0)).2.1 =
      ((icc_tag_entries descB wX wY wZ rX rY rZ gX gY gZ bX bY bZ gEnc).getD 0
        ([], 0, 0)).2.1 ∧
    byte_slice (create_rgb_profile descB wX wY wZ rX rY rZ gX gY gZ bX bY bZ gEnc
        y mo d h mi s) (240 + ((desc_tag descB).length + 80)) 16 = curv_tag gEnc ∧
    (create_rgb_profile descB wX wY wZ rX rY rZ gX gY gZ bX bY bZ gEnc
        y mo d h mi s).length = 240 + ((desc_tag descB).length + 96) := by
  refine ⟨?_, ?_, ?_, ?_, ?_, ?_⟩
  · unfold icc_tag_entries
    rw [icc_layout_eval]
    rfl
  · unfold icc_tag_entries
    rw [icc_layout_eval]
    rfl
  · unfold icc_tag_entries
    rw [icc_layout_eval]
    rfl
  · unfold icc_tag_entries
    rw [icc_layout_eval]
    rfl
  · simp only [create_rgb_profile]
    rw [icc_layout_eval]
    rw [byte_slice_pos _
      (icc_header (240 + (desc_tag descB ++ xyz_tag wX wY wZ ++ xyz_tag rX rY rZ ++
        xyz_tag gX gY gZ ++ xyz_tag bX bY bZ ++ curv_tag gEnc).length) y mo d h mi s ++
        (pack32 9 ++
          (((([([0x64, 0x65, 0x73, 0x63], 240, (desc_tag descB).length),
            ([0x77, 0x74, 0x70, 0x74], 240 + (desc_tag descB).length, 20),
            ([0x72, 0x58, 0x59, 0x5A], 240 + ((desc_tag descB).length + 20), 20),
            ([0x67, 0x58, 0x59, 0x5A], 240 + ((desc_tag descB).length + 40), 20),
            ([0x62, 0x58, 0x59, 0x5A], 240 + ((desc_tag descB).length + 60), 20),
            ([0x72, 0x54, 0x52, 0x43], 240 + ((desc_tag descB).length + 80), 16),
            ([0x67, 0x54, 0x52, 0x43], 240 + ((desc_tag descB).length + 80), 16),
            ([0x62, 0x54, 0x52, 0x43], 240 + ((desc_tag descB).length + 80), 16),
            ([0x63, 0x70, 0x72, 0x74], 240, (desc_tag descB).length)].map
              (fun e => e.1 ++ pack32 e.2.1 ++ pack32 e.2.2)).flatten) ++
            (desc_tag descB ++ (xyz_tag wX wY wZ ++ (xyz_tag rX rY rZ ++
              (xyz_tag gX gY gZ ++ xyz_tag bX bY bZ))))))))
      (curv_tag gEnc) 16 _ (by simp [List.append_assoc]) ?_]
    · rw [← curv_tag_length gEnc, List.take_length]
    · simp [icc_header_length, pack16_length, pack32_length, xyz_tag_length,
        curv_tag_length, List.length_append] <;> omega
  · rw [create_rgb_profile_length]
    omega

theorem crc32_lt (l : List ℕ) : crc32 l < 2 ^ 32 := Nat.mod_lt _ (by norm_num)

theorem read_chunks_nil : read_chunks [] = [] := by
  rw [read_chunks]
  simp

theorem png_chunk_length (t d : List ℕ) (ht : t.length = 4) :
    (png_chunk t d).length = 12 + d.length := by
  simp [png_chunk, pack32_length, ht]
  omega

theorem png_chunk_ne_nil (t d rest : List ℕ) : png_chunk t d ++ rest ≠ [] := by
  simp [png_chunk, pack32]

/-- Helper: reading one well-formed chunk off the front of a stream yields its
type, data and CRC32 over type ++ data, and recurses on the rest. -/
theorem read_chunks_cons (t d rest : List ℕ) (ht : t.length = 4)
    (hd : d.length < 2 ^ 32) :
    read_chunks (png_chunk t d ++ rest) = (t, d, crc32 (t ++ d)) :: read_chunks rest := by
  rw [read_chunks]
  rw [dif_neg (png_chunk_ne_nil t d _)]
  have hlen : readU32 (png_chunk t d ++ rest) 0 = d.length := by
    apply readU32_at _ [] (t ++ (d ++ (pack32 (crc32 (t ++ d)) ++ rest))) d.length 0
      (by simp [png_chunk, List.append_assoc]) rfl hd
  have htype : byte_slice (png_chunk t d ++ rest) 4 4 = t := by
    rw [byte_slice_pos _ (pack32 d.length)
      (t ++ (d ++ (pack32 (crc32 (t ++ d)) ++ rest))) 4 4
      (by simp [png_chunk, List.append_assoc]) (by simp [pack32_length])]
    rw [List.take_left' ht]
  have hdata : byte_slice (png_chunk t d ++ rest) 8 d.length = d := by
    rw [byte_slice_pos _ (pack32 d.length ++ t)
      (d ++ (pack32 (crc32 (t ++ d)) ++ rest)) d.length 8
      (by simp [png_chunk, List.append_assoc]) (by simp [pack32_length, ht])]
    rw [List.take_left' rfl]
  have hcrc : readU32 (png_chunk t d ++ rest) (8 + d.length) = crc32 (t ++ d) := by
    apply readU32_at _ (pack32 d.length ++ t ++ d) rest (crc32 (t ++ d)) (8 + d.length)
      (by simp [png_chunk, List.append_assoc]) (by simp [pack32_length, ht]; omega)
      (crc32_lt _)
  have hdrop : (png_chunk t d ++ rest).drop (12 + d.length) = rest := by
    apply List.drop_left'
    rw [png_chunk_length t d ht]
  rw [hlen, htype, hdata, hcrc, hdrop]

theorem read_chunks_last (t d : List ℕ) (ht : t.length = 4) (hd : d.length < 2 ^ 32) :
    read_chunks (png_chunk t d) = [(t, d, crc32 (t ++ d))] := by
  have := read_chunks_cons t d [] ht hd
  simpa [read_chunks_nil] using this

theorem ihdr_data_length (w h : ℕ) : (ihdr_data w h).length = 13 := by
  simp [ihdr_data, pack32_length]

/-- C7: every byte stream emitted by save_pq_png is the 8-byte PNG signature
followed by chunks exactly in the order IHDR, cICP, iCCP (present exactly when
ICC data is supplied), IDAT, IEND; each chunk's stored CRC field equals
CRC32(type ++ data); and regardless of the input image and peak the cICP
payload is exactly the four bytes (9, 16, 0, 1).  Stated by running the chunk
reader over everything after the signature. -/
theorem save_pq_png_chunks (w h : ℕ) (idat : List ℕ) (icc : Option (List ℕ))
    (hidat : idat.length < 2 ^ 32)
    (hicc : ∀ c ∈ icc, c.length < 2 ^ 32 - 13) :
    read_chunks ((save_pq_png_bytes w h idat icc).drop 8) =
      [([0x49, 0x48, 0x44, 0x52], ihdr_data w h,
         crc32 ([0x49, 0x48, 0x44, 0x52] ++ ihdr_data w h)),
       ([0x63, 0x49, 0x43, 0x50], [9, 16, 0, 1],
         crc32 ([0x63, 0x49, 0x43, 0x50] ++ [9, 16, 0, 1]))] ++
      (icc.elim [] fun c => [([0x69, 0x43, 0x43, 0x50], icc_profile_name ++ [0] ++ c,
         crc32 ([0x69, 0x43, 0x43, 0x50] ++ (icc_profile_name ++ [0] ++ c)))]) ++
      [([0x49, 0x44, 0x41, 0x54], idat, crc32 ([0x49, 0x44, 0x41, 0x54] ++ idat)),
       ([0x49, 0x45, 0x4E, 0x44], [], crc32 [0x49, 0x45, 0x4E, 0x44])] := by
  cases icc with
  | none =>
    have hdrop : (save_pq_png_bytes w h idat none).drop 8 =
        png_chunk [0x49, 0x48, 0x44, 0x52] (ihdr_data w h) ++
        (make_cicp_chunk ++
        (png_chunk [0x49, 0x44, 0x41, 0x54] idat ++
        png_chunk [0x49, 0x45, 0x4E, 0x44] [])) := by
      unfold save_pq_png_bytes
      rw [show png_signature ++ png_chunk [0x49, 0x48, 0x44, 0x52] (ihdr_data w h) ++
        make_cicp_chunk ++ [] ++
        png_chunk [0x49, 0x44, 0x41, 0x54] idat ++
        png_chunk [0x49, 0x45, 0x4E, 0x44] [] =
        png_signature ++ (png_chunk [0x49, 0x48, 0x44, 0x52] (ihdr_data w h) ++
        (make_cicp_chunk ++
        (png_chunk [0x49, 0x44, 0x41, 0x54] idat ++
        png_chunk [0x49, 0x45, 0x4E, 0x44] []))) by simp [List.append_assoc]]
      exact List.drop_left' rfl
    rw [hdrop]
    rw [read_chunks_cons [0x49, 0x48, 0x44, 0x52] (ihdr_data w h) _ rfl
      (by rw [ihdr_data_length]; norm_num)]
    rw [show make_cicp_chunk = png_chunk [0x63, 0x49, 0x43, 0x50] [9, 16, 0, 1] from rfl]
    rw [read_chunks_cons [0x63, 0x49, 0x43, 0x50] [9, 16, 0, 1] _ rfl (by norm_num)]
    rw [read_chunks_cons [0x49, 0x44, 0x41, 0x54] idat _ rfl hidat]
    rw [read_chunks_last [0x49, 0x45, 0x4E, 0x44] [] rfl (by norm_num)]
    simp
  | some c =>
    have hc := hicc c (by simp)
    have hdrop : (save_pq_png_bytes w h idat (some c)).drop 8 =
        png_chunk [0x49, 0x48, 0x44, 0x52] (ihdr_data w h) ++
        (make_cicp_chunk ++
        (make_iccp_chunk c ++
        (png_chunk [0x49, 0x44, 0x41, 0x54] idat ++
        png_chunk [0x49, 0x45, 0x4E, 0x44] []))) := by
      unfold save_pq_png_bytes
      rw [show png_signature ++ png_chunk [0x49, 0x48, 0x44, 0x52] (ihdr_data w h) ++
        make_cicp_chunk ++ make_iccp_chunk c ++
        png_chunk [0x49, 0x44, 0x41, 0x54] idat ++
        png_chunk [0x49, 0x45, 0x4E, 0x44] [] =
        png_signature ++ (png_chunk [0x49, 0x48, 0x44, 0x52] (ihdr_data w h) ++
        (make_cicp_chunk ++
        (make_iccp_chunk c ++
        (png_chunk [0x49, 0x44, 0x41, 0x54] idat ++
        png_chunk [0x49, 0x45, 0x4E, 0x44] [])))) by simp [List.append_assoc]]
      exact List.drop_left' rfl
    rw [hdrop]
    rw [read_chunks_cons [0x49, 0x48, 0x44, 0x52] (ihdr_data w h) _ rfl
      (by rw [ihdr_data_length]; norm_num)]
    rw [show make_cicp_chunk = png_chunk [0x63, 0x49, 0x43, 0x50] [9, 16, 0, 1] from rfl]
    rw [read_chunks_cons [0x63, 0x49, 0x43, 0x50] [9, 16, 0, 1] _ rfl (by norm_num)]
    rw [show make_iccp_chunk c =
      png_chunk [0x69, 0x43, 0x43, 0x50] (icc_profile_name ++ [0] ++ c) from rfl]
    rw [read_chunks_cons [0x69, 0x43, 0x43, 0x50] (icc_profile_name ++ [0] ++ c) _ rfl
      (by simp [icc_profile_name]; omega)]
    rw [read_chunks_cons [0x49, 0x44, 0x41, 0x54] idat _ rfl hidat]
    rw [read_chunks_last [0x49, 0x45, 0x4E, 0x44] [] rfl (by norm_num)]
    simp

/-- Witness for C7 at w = 1, h = 1, a one-byte IDAT stream and a one-byte
compressed ICC stream. -/
theorem save_pq_png_chunks_witness :
    read_chunks ((save_pq_png_bytes 1 1 [0] (some [7])).drop 8) =
      [([0x49, 0x48, 0x44, 0x52], ihdr_data 1 1,
         crc32 ([0x49, 0x48, 0x44, 0x52] ++ ihdr_data 1 1)),
       ([0x63, 0x49, 0x43, 0x50], [9, 16, 0, 1],
         crc32 ([0x63, 0x49, 0x43, 0x50] ++ [9, 16, 0, 1]))] ++
      ((some [7]).elim [] fun c => [([0x69, 0x43, 0x43, 0x50],
         icc_profile_name ++ [0] ++ c,
         crc32 ([0x69, 0x43, 0x43, 0x50] ++ (icc_profile_name ++ [0] ++ c)))]) ++
      [([0x49, 0x44, 0x41, 0x54], [0], crc32 ([0x49, 0x44, 0x41, 0x54] ++ [0])),
       ([0x49, 0x45, 0x4E, 0x44], [], crc32 [0x49, 0x45, 0x4E, 0x44])] :=
  save_pq_png_chunks 1 1 [0] (some [7]) (by norm_num)
    (fun c hc => by
      simp only [Option.mem_def, Option.some.injEq] at hc
      subst hc
      norm_num)
